import Mathlib

/-!
Verification development for the OS-TUI repository (Go, Bubble Tea based
OpenStack terminal client).  The definitions below are a shallow embedding of
the navigation state machine (internal/ui/app.go), the relationship-graph
builders (internal/ui/graph/graph.go and the compute ServerGraphModel), and
the full-topology builder (internal/ui/topology/topology.go).

Conventions of the embedding:
  * Go structs become Lean structures carrying exactly the fields the embedded
    code reads; Go strings are Lean String, Go int is Lean Int where sign can
    matter and Nat for lengths.
  * Fallible client calls are passed in as Except values / functions, so a
    builder is a pure function of its fetch results.
  * lipgloss text styles only add terminal color escape codes around the text;
    they are modelled as the identity on the text.  The lipgloss geometry
    primitives (borders, JoinHorizontal, JoinVertical, Width) are modelled
    structurally below, following the library's documented behaviour.
  * Go map reads with a missing key yield the zero value; maps are modelled as
    last-writer-wins lookups over the underlying list.
-/

namespace OSTUI

/-! ## Small string/list helpers shared by the renderers -/

/-- Split a rendered block into its lines (Go strings.Split(s, "\n")),
implemented by structural recursion over the characters so that it reduces
in the kernel. -/
def splitLinesAux (acc : List Char) : List Char → List String
  | [] => [String.mk acc.reverse]
  | c :: cs =>
    if c = '\n' then String.mk acc.reverse :: splitLinesAux [] cs
    else splitLinesAux (c :: acc) cs

def splitLines (s : String) : List String := splitLinesAux [] s.data

/-- Right-pad a line with spaces to the given width. -/
def padTo (w : Nat) (s : String) : String :=
  s ++ String.mk (List.replicate (w - s.length) ' ')

/-- Width of the widest line in a list of lines. -/
def maxLineW (ls : List String) : Nat := ls.foldl (fun a l => max a l.length) 0

/-- lipgloss.Width: printable width of the widest line of a block. -/
def lipWidth (s : String) : Nat := maxLineW (splitLines s)

/-- n copies of a string glued together. -/
def strRepeat (s : String) (n : Nat) : String := String.join (List.replicate n s)

/-- Go compares strings bytewise; for the rendered names this is the
lexicographic order on the code-point sequence, modelled as a List Nat so
that comparisons reduce in the kernel. -/
def strKey (s : String) : List Nat := s.data.map Char.toNat

/-- Insertion step of the stand-in for Go sort.Slice (see sortByKey). -/
def insertByKey {α β : Type} [LinearOrder β] (k : α → β) (a : α) :
    List α → List α
  | [] => [a]
  | b :: l => if k a ≤ k b then a :: b :: l else b :: insertByKey k a l

/-- Deterministic stand-in for Go sort.Slice with a key-based less function.
Go only guarantees the result is sorted by the less function (ties in an
unspecified order); insertion sort is one admissible outcome. -/
def sortByKey {α β : Type} [LinearOrder β] (k : α → β) : List α → List α
  | [] => []
  | a :: l => insertByKey k a (sortByKey k l)

theorem mem_insertByKey {α β : Type} [LinearOrder β] (k : α → β) (a x : α)
    (l : List α) : x ∈ insertByKey k a l ↔ x = a ∨ x ∈ l := by
  induction l with
  | nil => simp [insertByKey]
  | cons b t ih =>
    by_cases hab : k a ≤ k b
    · simp [insertByKey, hab]
    · simp [insertByKey, hab, ih]
      tauto

theorem insertByKey_map_sorted {α β : Type} [LinearOrder β] (k : α → β) (a : α)
    (l : List α) (h : List.Sorted (· ≤ ·) (l.map k)) :
    List.Sorted (· ≤ ·) ((insertByKey k a l).map k) := by
  induction l with
  | nil => simp [insertByKey]
  | cons b t ih =>
    simp only [List.map_cons, List.sorted_cons] at h
    by_cases hab : k a ≤ k b
    · simp only [insertByKey, hab, if_pos, List.map_cons, List.sorted_cons]
      refine ⟨?_, ?_, h.2⟩
      · intro x hx
        simp only [List.mem_cons] at hx
        rcases hx with rfl | hx
        · exact hab
        · exact le_trans hab (h.1 x hx)
      · exact h.1
    · have hba : k b ≤ k a := le_of_not_le hab
      simp only [insertByKey, hab, if_neg, not_false_iff, List.map_cons,
        List.sorted_cons]
      refine ⟨?_, ih h.2⟩
      intro x hx
      simp only [List.mem_map] at hx
      obtain ⟨y, hy, rfl⟩ := hx
      rcases (mem_insertByKey k a y t).1 hy with rfl | hy2
      · exact hba
      · exact h.1 (k y) (List.mem_map_of_mem k hy2)

/-- The key sequence of a sortByKey result is sorted ascending. -/
theorem sortByKey_map_sorted {α β : Type} [LinearOrder β] (k : α → β)
    (l : List α) : List.Sorted (· ≤ ·) ((sortByKey k l).map k) := by
  induction l with
  | nil => simp [sortByKey]
  | cons a t ih => exact insertByKey_map_sorted k a (sortByKey k t) ih

/-! ## Topology builder (internal/ui/topology/topology.go, buildTopology)

Records carry exactly the fields buildTopology reads from the gophercloud
types.  Go map reads with missing keys return the zero value, modelled by
the `...MapGet` helpers (last writer wins, zero-value default). -/

structure ServerR where
  id : String
  name : String
  status : String
deriving DecidableEq, Repr

structure NetworkR where
  id : String
  name : String
  subnets : List String
deriving DecidableEq, Repr

structure SubnetR where
  id : String
  cidr : String
deriving DecidableEq, Repr

structure PortR where
  id : String
  deviceID : String
  networkID : String
  macAddress : String
  fixedIPs : List String
deriving DecidableEq, Repr

structure FipR where
  portID : String
  floatingIP : String
deriving DecidableEq, Repr

structure AttachR where
  serverID : String
  device : String
deriving DecidableEq, Repr

structure VolumeR where
  name : String
  size : Int
  attachments : List AttachR
deriving DecidableEq, Repr

structure RouterR where
  name : String
  gatewayNetworkID : String
deriving DecidableEq, Repr

/-- The flat lists the seven sub-fetches deliver (successful case). -/
structure TopoInput where
  srvList : List ServerR
  netList : List NetworkR
  subList : List SubnetR
  portList : List PortR
  fipList : List FipR
  volList : List VolumeR
  routerList : List RouterR
deriving Repr

/-- netMap[id] (Go map built by one pass; missing key gives the zero value). -/
def netMapGet (netList : List NetworkR) (id : String) : NetworkR :=
  (netList.foldl (fun acc n => if n.id = id then some n else acc) none).getD
    { id := "", name := "", subnets := [] }

/-- subnetMap[id], with the ok flag of the two-value read. -/
def subnetMapFind (subList : List SubnetR) (id : String) : Option SubnetR :=
  subList.foldl (fun acc s => if s.id = id then some s else acc) none

/-- serverMap[id] (zero value when absent, as in Go). -/
def serverMapGet (srvList : List ServerR) (id : String) : ServerR :=
  (srvList.foldl (fun acc s => if s.id = id then some s else acc) none).getD
    { id := "", name := "", status := "" }

/-- serverPorts[sid]: ports appended in list order, only for DeviceID ≠ "". -/
def serverPorts (portList : List PortR) (sid : String) : List PortR :=
  portList.filter (fun p => p.deviceID ≠ "" ∧ p.deviceID = sid)

/-- First-occurrence deduplication; a concrete iteration order for the Go set
netServers[nid] (Go map iteration order is unspecified; the ids are sorted by
server name immediately afterwards). -/
def dedupFirstAux (seen : List String) : List String → List String
  | [] => []
  | a :: l =>
    if a ∈ seen then dedupFirstAux seen l else a :: dedupFirstAux (a :: seen) l

def dedupFirst (l : List String) : List String := dedupFirstAux [] l

/-- netServers[nid]: the set of server ids reachable via ports on nid. -/
def netServerIDs (portList : List PortR) (nid : String) : List String :=
  dedupFirst ((portList.filter
    (fun p => p.deviceID ≠ "" ∧ p.networkID = nid)).map (·.deviceID))

/-- portFIPs[pid]: floating ips bound to the port, in fetch order. -/
def portFIPs (fipList : List FipR) (pid : String) : List FipR :=
  fipList.filter (fun f => f.portID ≠ "" ∧ f.portID = pid)

/-- serverVolumes[sid]: one entry per attachment naming the server. -/
def serverVolumes (volList : List VolumeR) (sid : String) : List VolumeR :=
  volList.flatMap (fun v =>
    (v.attachments.filter (fun a => a.serverID ≠ "" ∧ a.serverID = sid)).map
      (fun _ => v))

/-- netRouters[nid]: routers whose external gateway network is nid. -/
def netRouters (routerList : List RouterR) (nid : String) : List RouterR :=
  routerList.filter (fun r => r.gatewayNetworkID ≠ "" ∧ r.gatewayNetworkID = nid)

/-- Tree connector glyphs (color styling is modelled as the identity). -/
def branchGlyph : String := "├── "
def lastBranchGlyph : String := "└── "
def indentGlyph : String := "│   "

/-- One output line of the topology render, in structured form; the final
content string is the concatenation of the texts plus one newline each. -/
inductive TLine where
  | netHeader (name cidr : String)
  | server (pfx name status : String)
  | port (pfx ip : String)
  | fip (pfx addr : String)
  | vol (pfx device : String) (size : Int)
  | router (pfx name : String)
  | blank
  | unattachedHeader
  | unFip (pfx addr : String)
  | unVol (pfx name : String) (size : Int)
deriving DecidableEq, Repr

def TLine.text : TLine → String
  | .netHeader nm cidr => "Network: " ++ nm ++ " (" ++ cidr ++ ")"
  | .server pfx nm st => pfx ++ "Server: " ++ nm ++ " [" ++ st ++ "]"
  | .port pfx ip => pfx ++ "Port: " ++ ip
  | .fip pfx a => pfx ++ "FIP: " ++ a
  | .vol pfx dev size => pfx ++ "Vol: " ++ dev ++ " " ++ toString size ++ "GB"
  | .router pfx nm => pfx ++ "Router: " ++ nm
  | .blank => ""
  | .unattachedHeader => "Unattached resources:"
  | .unFip pfx a => pfx ++ "FIP: " ++ a ++ " (not associated)"
  | .unVol pfx nm size =>
      pfx ++ "Vol: " ++ nm ++ " " ++ toString size ++ "GB (available)"

/-- The nested floating-ip lines under one port. -/
def fipTreeLines (fips : List FipR) : List TLine :=
  fips.enum.map (fun fi =>
    let pfx := indentGlyph ++ "    " ++
      (if fi.1 = fips.length - 1 then lastBranchGlyph else branchGlyph)
    TLine.fip pfx fi.2.floatingIP)

/-- The port lines (with nested fips) under one server; portIsLast mirrors
the source: last index and no volumes and no fips on this port. -/
def portTreeLines (fipList : List FipR) (volCount : Nat) (ports : List PortR) :
    List TLine :=
  ports.enum.flatMap (fun pp =>
    let fips := portFIPs fipList pp.2.id
    let portIsLast :=
      pp.1 = ports.length - 1 ∧ volCount = 0 ∧ fips.length = 0
    let pfx := indentGlyph ++
      (if portIsLast then lastBranchGlyph else branchGlyph)
    let ip := pp.2.fixedIPs.headD ""
    TLine.port pfx ip :: fipTreeLines fips)

/-- The volume lines under one server (device from the first attachment). -/
def volTreeLines (vols : List VolumeR) : List TLine :=
  vols.enum.map (fun vv =>
    let pfx := indentGlyph ++
      (if vv.1 = vols.length - 1 then lastBranchGlyph else branchGlyph)
    let device := match vv.2.attachments with
      | [] => ""
      | a :: _ => a.device
    TLine.vol pfx device vv.2.size)

/-- The server blocks of one network, sorted by server name. -/
def serverTreeLines (i : TopoInput) (nid : String) : List TLine :=
  let srvIDs := sortByKey (fun sid => strKey (serverMapGet i.srvList sid).name)
    (netServerIDs i.portList nid)
  let routerCount := (netRouters i.routerList nid).length
  srvIDs.enum.flatMap (fun ss =>
    let srv := serverMapGet i.srvList ss.2
    let isLastServer := ss.1 = srvIDs.length - 1 ∧ routerCount = 0
    let pfx := if isLastServer then lastBranchGlyph else branchGlyph
    let ports := sortByKey (fun p => strKey p.id) (serverPorts i.portList srv.id)
    TLine.server pfx srv.name srv.status ::
      portTreeLines i.fipList (serverVolumes i.volList srv.id).length ports ++
      volTreeLines (serverVolumes i.volList srv.id))

/-- The router lines of one network. -/
def routerTreeLines (i : TopoInput) (nid : String) : List TLine :=
  let routers := netRouters i.routerList nid
  routers.enum.map (fun rr =>
    let pfx := if rr.1 = routers.length - 1 then lastBranchGlyph else branchGlyph
    TLine.router pfx rr.2.name)

/-- One network block: header, servers, routers, trailing blank line. -/
def netBlock (i : TopoInput) (nid : String) : List TLine :=
  let n := netMapGet i.netList nid
  let cidr := match n.subnets with
    | [] => ""
    | s0 :: _ => match subnetMapFind i.subList s0 with
      | some s => s.cidr
      | none => ""
  TLine.netHeader n.name cidr ::
    (serverTreeLines i nid ++ routerTreeLines i nid ++ [TLine.blank])

/-- Network ids sorted by network name (sort.Slice on netIDs). -/
def sortedNetIDs (i : TopoInput) : List String :=
  sortByKey (fun nid => strKey (netMapGet i.netList nid).name)
    (i.netList.map (·.id))

/-- The trailing "Unattached resources" section: floating ips with empty
PortID and volumes with no attachments. -/
def unattachedLines (i : TopoInput) : List TLine :=
  let unFIPs := i.fipList.filter (fun f => f.portID = "")
  let unVols := i.volList.filter (fun v => v.attachments.length = 0)
  if unFIPs.length > 0 ∨ unVols.length > 0 then
    TLine.unattachedHeader ::
      (unFIPs.enum.map (fun ff =>
        let isLast := ff.1 = unFIPs.length - 1 ∧ unVols.length = 0
        TLine.unFip (if isLast then lastBranchGlyph else branchGlyph)
          ff.2.floatingIP) ++
       unVols.enum.map (fun vv =>
        let isLast := vv.1 = unVols.length - 1
        TLine.unVol (if isLast then lastBranchGlyph else branchGlyph)
          vv.2.name vv.2.size))
  else []

/-- All lines of the topology render, in output order. -/
def buildTopologyLines (i : TopoInput) : List TLine :=
  (sortedNetIDs i).flatMap (netBlock i) ++ unattachedLines i

/-- The rendered topology content (each line followed by a newline, exactly
as the strings.Builder in the source emits them). -/
def buildTopologyContent (i : TopoInput) : String :=
  String.join ((buildTopologyLines i).map (fun l => l.text ++ "\n"))

/-- The seven sub-fetch results of buildTopology (one per goroutine). -/
structure TopoFetches where
  instancesR : Except String (List ServerR)
  networksR : Except String (List NetworkR)
  subnetsR : Except String (List SubnetR)
  portsR : Except String (List PortR)
  fipsR : Except String (List FipR)
  volumesR : Except String (List VolumeR)
  routersR : Except String (List RouterR)

/-- The wrapped error messages collected on errChan.  With more than one
failing fetch the Go channel receive order is scheduling-dependent; this
model uses goroutine spawn order, which is one admissible order and agrees
with the source whenever at most one fetch fails. -/
def topoErrors (f : TopoFetches) : List String :=
  (match f.instancesR with
    | .error e => ["list instances: " ++ e] | .ok _ => []) ++
  (match f.networksR with
    | .error e => ["list networks: " ++ e] | .ok _ => []) ++
  (match f.subnetsR with
    | .error e => ["list subnets: " ++ e] | .ok _ => []) ++
  (match f.portsR with
    | .error e => ["list ports: " ++ e] | .ok _ => []) ++
  (match f.fipsR with
    | .error e => ["list floating IPs: " ++ e] | .ok _ => []) ++
  (match f.volumesR with
    | .error e => ["list volumes: " ++ e] | .ok _ => []) ++
  (match f.routersR with
    | .error e => ["list routers: " ++ e] | .ok _ => [])

def TopoFetches.input (f : TopoFetches) : TopoInput :=
  { srvList := f.instancesR.toOption.getD []
    netList := f.networksR.toOption.getD []
    subList := f.subnetsR.toOption.getD []
    portList := f.portsR.toOption.getD []
    fipList := f.fipsR.toOption.getD []
    volList := f.volumesR.toOption.getD []
    routerList := f.routersR.toOption.getD [] }

/-- buildTopology: join all seven fetches, fail on the first collected error,
otherwise render the whole snapshot. -/
def buildTopology (f : TopoFetches) : Except String String :=
  match topoErrors f with
  | e :: _ => .error e
  | [] => .ok (buildTopologyContent f.input)

/-! ## lipgloss geometry model (external collaborator)

The graph builders compose boxes with lipgloss.  Only the geometry matters
for the embedded code: rounded-border boxes with Padding(0,1), JoinHorizontal
(Top or Center), JoinVertical(Left) and Width.  Color styling adds no text
and is modelled as the identity. -/

/-- A rounded-border box with horizontal padding 1 around the content. -/
def roundedBox (content : String) : String :=
  let ls := splitLines content
  let w := maxLineW ls
  String.intercalate "\n"
    (("╭" ++ strRepeat "─" (w + 2) ++ "╮") ::
     (ls.map (fun l => "│ " ++ padTo w l ++ " │") ++
      ["╰" ++ strRepeat "─" (w + 2) ++ "╯"]))

/-- Vertical padding of a block to a common height, Center position
(extra blank lines split half above, half below; odd extra above). -/
def padBlockCenter (h : Nat) (ls : List String) : List String :=
  let n := h - ls.length
  List.replicate ((n + 1) / 2) "" ++ ls ++ List.replicate (n / 2) ""

/-- Vertical padding of a block to a common height, Top position. -/
def padBlockTop (h : Nat) (ls : List String) : List String :=
  ls ++ List.replicate (h - ls.length) ""

/-- lipgloss.JoinHorizontal: pad blocks to a common height, pad each block
line to its block width, and glue the rows.  Single-block shortcut as in the
library. -/
def joinHorizontalWith (pad : Nat → List String → List String)
    (blocks : List String) : String :=
  match blocks with
  | [] => ""
  | [s] => s
  | _ =>
    let bls := blocks.map splitLines
    let ws := blocks.map lipWidth
    let h := bls.foldl (fun a b => max a b.length) 0
    let padded := bls.map (pad h)
    String.intercalate "\n" ((List.range h).map (fun i =>
      String.join ((padded.zip ws).map (fun bw => padTo bw.2 (bw.1.getD i "")))))

def joinHorizontalCenter (blocks : List String) : String :=
  joinHorizontalWith padBlockCenter blocks

def joinHorizontalTop (blocks : List String) : String :=
  joinHorizontalWith padBlockTop blocks

/-- lipgloss.JoinVertical(Left): stack blocks, pad every line to the widest. -/
def joinVerticalLeft (blocks : List String) : String :=
  match blocks with
  | [] => ""
  | [s] => s
  | _ =>
    let ls := blocks.flatMap splitLines
    let w := maxLineW ls
    String.intercalate "\n" (ls.map (padTo w))

/-! ## Generic graph view (internal/ui/graph/graph.go, GraphModel.buildGraph)

The builder is a pure function of the focal resource and of the client call
results, which are supplied through GraphEnv.  GetNetwork returns a pointer
plus an ignored error in the source; both the error and the nil-pointer case
collapse to none here. -/

structure InterfaceR where
  portID : String
  networkID : String
  fixedIPs : List String
deriving DecidableEq, Repr

structure VolAttachR where
  volumeID : String
  device : String
deriving DecidableEq, Repr

structure ListenerR where
  protocol : String
  protocolPort : Int
deriving DecidableEq, Repr

structure PoolR where
  name : String
deriving DecidableEq, Repr

/-- The Resource Data Provider calls the two graph builders make. -/
structure GraphEnv where
  listServerInterfaces : String → Except String (List InterfaceR)
  listServerVolumes : String → Except String (List VolAttachR)
  listFloatingIPs : Except String (List FipR)
  getNetwork : String → Option NetworkR
  listPortsByNetwork : String → Except String (List PortR)
  getVolume : String → Except String VolumeR
  getInstance : String → Except String ServerR
  listListeners : String → Except String (List ListenerR)
  listPools : String → Except String (List PoolR)

inductive GResourceType where
  | server | network | volume | floatingip | router | subnet | port
  | loadbalancer
deriving DecidableEq, Repr

def GResourceType.str : GResourceType → String
  | .server => "server"
  | .network => "network"
  | .volume => "volume"
  | .floatingip => "floatingip"
  | .router => "router"
  | .subnet => "subnet"
  | .port => "port"
  | .loadbalancer => "loadbalancer"

namespace GraphM

/-- The row of the network case: center box plus, when the port fetch
succeeds with a non-empty list, a connector and the first five port boxes
(no synthetic overflow box).  No viewport width is consulted. -/
def networkRow (env : GraphEnv) (resourceID resourceName : String) :
    List String :=
  let centerBox := roundedBox ("Network\n" ++ resourceName)
  [centerBox] ++
    (match env.listPortsByNetwork resourceID with
     | .ok ports =>
       if ports.length > 0 then
         [" ── ", joinVerticalLeft
           ((ports.take (min 5 ports.length)).map (fun p =>
             roundedBox ("Port\n" ++ p.macAddress)))]
       else []
     | .error _ => [])

/-- graph.go GraphModel.buildGraph: returns (content, err).  Every case of
this builder returns a nil error; fetch errors only suppress the affected
column. -/
def buildGraph (env : GraphEnv) (rt : GResourceType) (resourceID
    resourceName : String) (lbPresent : Bool) : String × Option String :=
  match rt with
  | .server =>
    let centerBox := roundedBox ("Server\n" ++ resourceName)
    let row :=
      match env.listServerInterfaces resourceID with
      | .ok ifaces =>
        if ifaces.length > 0 then
          let fips := env.listFloatingIPs.toOption.getD []
          let portBoxes := ifaces.map (fun i =>
            roundedBox ("Port\n" ++ String.intercalate "," i.fixedIPs))
          let netBoxes := ifaces.filterMap (fun i =>
            (env.getNetwork i.networkID).map (fun n =>
              roundedBox ("Net\n" ++ n.name)))
          let fipBoxes := ifaces.flatMap (fun i =>
            (fips.filter (fun f => f.portID = i.portID)).map (fun f =>
              roundedBox ("FIP\n" ++ f.floatingIP)))
          [centerBox, " ── ", joinVerticalLeft portBoxes] ++
          (if netBoxes.length > 0 then
            [" ── ", joinVerticalLeft netBoxes] else []) ++
          (if fipBoxes.length > 0 then
            [" ── ", joinVerticalLeft fipBoxes] else [])
        else [centerBox]
      | .error _ => [centerBox]
    let vols := (env.listServerVolumes resourceID).toOption.getD []
    let volPart :=
      if vols.length > 0 then
        joinHorizontalTop (vols.map (fun v =>
          roundedBox ("Vol\n" ++ v.device))) ++ "\n  │\n"
      else ""
    (volPart ++ joinHorizontalCenter row, none)
  | .network =>
    (joinHorizontalCenter (networkRow env resourceID resourceName), none)
  | .volume =>
    let centerBox := roundedBox ("Volume\n" ++ resourceName)
    let row := [centerBox] ++
      (match env.getVolume resourceID with
       | .ok vol =>
         vol.attachments.flatMap (fun att =>
           match env.getInstance att.serverID with
           | .ok srv => [" ── ", roundedBox ("Server\n" ++ srv.name)]
           | .error _ => [])
       | .error _ => [])
    (joinHorizontalCenter row, none)
  | .floatingip =>
    (roundedBox ("FloatingIP\n" ++ resourceName), none)
  | .loadbalancer =>
    let centerBox := roundedBox ("LoadBalancer\n" ++ resourceName)
    let rest :=
      if lbPresent then
        (match env.listListeners resourceID with
         | .ok ls =>
           if ls.length > 0 then
             "\n  │\n" ++ joinHorizontalTop (ls.map (fun l =>
               roundedBox ("Listener\n" ++ l.protocol ++ ":" ++
                 toString l.protocolPort)))
           else ""
         | .error _ => "") ++
        (match env.listPools resourceID with
         | .ok ps =>
           if ps.length > 0 then
             "\n  │\n" ++ joinHorizontalTop (ps.map (fun p =>
               roundedBox ("Pool\n" ++ p.name)))
           else ""
         | .error _ => "")
      else ""
    (centerBox ++ rest, none)
  | _ => ("Graph not available for " ++ rt.str, none)

end GraphM

/-! ## Server graph (compute ServerGraphModel.buildGraph)

The width-aware focal-server renderer.  The viewport width read inside
buildGraph is the one captured when the build command was created. -/

namespace SGraph

/-- Volume id shortened to its first 8 characters. -/
def volID8 (id : String) : String :=
  if id.length > 8 then String.mk (id.data.take 8) else id

/-- The volume boxes row content. -/
def volBoxesOf (vols : List VolAttachR) : List String :=
  vols.map (fun v =>
    roundedBox ("Vol: " ++ v.device ++ " " ++ volID8 v.volumeID))

/-- The uncapped port column: one box per interface. -/
def portColOf (ifaces : List InterfaceR) : List String :=
  ifaces.map (fun i =>
    roundedBox ("Port\nIP: " ++ String.intercalate ", " i.fixedIPs))

/-- The network column: one box per interface whose network resolves. -/
def netColOf (env : GraphEnv) (ifaces : List InterfaceR) : List String :=
  ifaces.filterMap (fun i =>
    (env.getNetwork i.networkID).map (fun n =>
      roundedBox ("Net: " ++ n.name)))

/-- The floating-ip column: one box per (interface, bound fip) pair. -/
def fipColOf (fips : List FipR) (ifaces : List InterfaceR) : List String :=
  ifaces.flatMap (fun i =>
    (fips.filter (fun f => f.portID = i.portID)).map (fun f =>
      roundedBox ("FIP: " ++ f.floatingIP)))

/-- The fixed port-column cap (const maxPorts = 8). -/
def maxPorts : Nat := 8

/-- Overflow handling on the port column: first maxPorts boxes plus one
"+N more" box, N the number of dropped boxes. -/
def capPorts (portCol : List String) : List String :=
  if portCol.length > maxPorts then
    portCol.take maxPorts ++
      [roundedBox ("+" ++ toString (portCol.length - maxPorts) ++ " more")]
  else portCol

/-- Width of the widest box of a column (the local maxColWidth closure). -/
def maxColWidth (col : List String) : Nat :=
  col.foldl (fun a s => max a (lipWidth s)) 0

/-- Total width of the horizontal layout: server box plus, per non-empty
column, a 3-cell connector allowance plus the column width. -/
def sgTotalWidth (serverBox : String) (portCol netCol fipCol : List String) :
    Int :=
  (lipWidth serverBox : Int) +
  (if portCol.length > 0 then 3 + (maxColWidth portCol : Int) else 0) +
  (if netCol.length > 0 then 3 + (maxColWidth netCol : Int) else 0) +
  (if fipCol.length > 0 then 3 + (maxColWidth fipCol : Int) else 0)

/-- The stacking decision: only taken when the captured viewport width is
positive and the horizontal layout would overflow it. -/
def sgShouldStack (vpWidth : Int) (serverBox : String)
    (portCol netCol fipCol : List String) : Bool :=
  if vpWidth > 0 then
    decide (sgTotalWidth serverBox portCol netCol fipCol > vpWidth)
  else false

/-- Vertical stacking layout: server box, then each non-empty column as its
own vertical block. -/
def stackedBody (serverBox : String) (portCol netCol fipCol : List String) :
    String :=
  joinVerticalLeft
    ([serverBox] ++
     (if portCol.length > 0 then [joinVerticalLeft portCol] else []) ++
     (if netCol.length > 0 then [joinVerticalLeft netCol] else []) ++
     (if fipCol.length > 0 then [joinVerticalLeft fipCol] else []))

/-- Horizontal layout: server box and columns joined left to right. -/
def horizontalBody (serverBox : String) (portCol netCol fipCol : List String) :
    String :=
  joinHorizontalCenter
    ([serverBox] ++
     (if portCol.length > 0 then [" ── ", joinVerticalLeft portCol] else []) ++
     (if netCol.length > 0 then [" ── ", joinVerticalLeft netCol] else []) ++
     (if fipCol.length > 0 then [" ── ", joinVerticalLeft fipCol] else []))

/-- chunkStrings: rows of at most `size` boxes (called with size 4). -/
def chunkStrings (size : Nat) (l : List String) : List (List String) :=
  if 0 < size ∧ size < l.length then
    l.take size :: chunkStrings size (l.drop size)
  else [l]
termination_by l.length
decreasing_by
  simp only [List.length_drop]
  omega

/-- The volume row rendered above the main row (rows of at most four boxes,
followed by a connector), empty when there are no volumes. -/
def volPartOf (vols : List VolAttachR) : String :=
  if (volBoxesOf vols).length > 0 then
    joinVerticalLeft ((chunkStrings 4 (volBoxesOf vols)).map
      joinHorizontalTop) ++ "\n" ++ "  │\n"
  else ""

/-- ServerGraphModel.buildGraph: the graphDataMsg it produces, as
(content, err).  Interface and volume fetch errors propagate; the
floating-ip fetch error and network lookup failures are ignored. -/
def buildGraph (env : GraphEnv) (vpWidth : Int) (serverID serverName : String) :
    String × Option String :=
  match env.listServerInterfaces serverID with
  | .error e => ("", some e)
  | .ok ifaces =>
  match env.listServerVolumes serverID with
  | .error e => ("", some e)
  | .ok vols =>
    let fips := env.listFloatingIPs.toOption.getD []
    let serverBox := roundedBox ("Server: " ++ serverName)
    let portCol0 := portColOf ifaces
    let netCol := netColOf env ifaces
    let fipCol := fipColOf fips ifaces
    let volPart := volPartOf vols
    let portCol := capPorts portCol0
    let body :=
      if sgShouldStack vpWidth serverBox portCol netCol fipCol then
        stackedBody serverBox portCol netCol fipCol
      else
        horizontalBody serverBox portCol netCol fipCol
    (volPart ++ body ++ "\n\n [g] close  [j/k] scroll", none)

end SGraph

/-! ## Navigation state machine (internal/ui/app.go, AppModel.Update)

The Bubble Tea runtime delivers one message at a time to AppModel.Update; a
returned command is executed asynchronously and its message is delivered in
a later step.  The embedding mirrors Update faithfully over the message
kinds the state machine distinguishes; external bubbles components (the
sidebar and cloud lists, the command text input, the logs and shell child
models, the detail submodels) only receive messages here, so they are
modelled by their delivered-message trace plus the fields Update reads. -/

namespace App

inductive AMsg where
  | key (s : String)
  | window (w h : Int)
  | goBack
  | openLogs (serverID : String)
  | shellClose
  | graphData (content : String) (err : Option String)
deriving DecidableEq, Repr

/-- Effects of one Update step: tea.Quit, a command producing a message
(e.g. the GoBackMsg closures), or a child Init starting an async load. -/
inductive AEff where
  | quit
  | emit (m : AMsg)
  | startLoad (slot id : String)
deriving DecidableEq, Repr

def AMsg.isKey : AMsg → Bool
  | .key _ => true
  | _ => false

/-- bubbles list.Model (external): items, cursor, geometry, message trace. -/
structure ListComp where
  items : List String
  cursor : Nat
  compWidth : Int
  compHeight : Int
  trace : List AMsg
deriving DecidableEq, Repr

def ListComp.selectedItem (l : ListComp) : Option String := l.items.get? l.cursor

def ListComp.update (l : ListComp) (m : AMsg) : ListComp :=
  { l with trace := l.trace ++ [m] }

/-- bubbles textinput (external): printable keys append to the value. -/
structure TextInput where
  value : String
  focused : Bool
  trace : List AMsg
deriving DecidableEq, Repr

def TextInput.update (t : TextInput) (m : AMsg) : TextInput :=
  match m with
  | .key s =>
    if s.length = 1 then { t with value := t.value ++ s, trace := t.trace ++ [m] }
    else { t with trace := t.trace ++ [m] }
  | _ => { t with trace := t.trace ++ [m] }

/-- The active list submodel (mainModel); identified by its section title,
with the table rows Update reads on Enter. -/
structure MainChild where
  sectionName : String
  rows : List (List String)
  cursor : Nat
  trace : List AMsg
deriving DecidableEq, Repr

def MainChild.selectedRow (c : MainChild) : List String :=
  (c.rows.get? c.cursor).getD []

def MainChild.update (c : MainChild) (m : AMsg) : MainChild :=
  { c with trace := c.trace ++ [m] }

/-- The active drill-down view (detailModel); kind is the concrete Go type. -/
structure DetailChild where
  kind : String
  resID : String
  resName : String
  showingGraph : Bool
  trace : List AMsg
deriving DecidableEq, Repr

def DetailChild.update (d : DetailChild) (m : AMsg) : DetailChild :=
  { d with trace := d.trace ++ [m] }

/-- graph.GraphModel as held in the graphModel slot. -/
structure GChild where
  resourceType : String
  resourceID : String
  resourceName : String
  loading : Bool
  err : Option String
  content : String
  vpWidth : Int
  vpHeight : Int
  vpContent : String
  vpTrace : List AMsg
deriving DecidableEq, Repr

/-- graph.NewGraphModel: loading with a fresh 80x24 viewport. -/
def newGraphChild (rt id name : String) : GChild :=
  { resourceType := rt, resourceID := id, resourceName := name
    loading := true, err := none, content := ""
    vpWidth := 80, vpHeight := 24, vpContent := "", vpTrace := [] }

/-- graph.GraphModel.Update: apply a completion, resize the viewport, map g
and esc to a GoBackMsg command, give other keys to the viewport.  The
spinner branch is visual only and changes nothing modelled here. -/
def gchildUpdate (g : GChild) (m : AMsg) : GChild × List AEff :=
  match m with
  | .graphData c e =>
    ({ g with loading := false, err := e, content := c, vpContent := c }, [])
  | .window w h =>
    ({ g with vpWidth := w, vpHeight := h - 2, vpContent := g.content }, [])
  | .key s =>
    if s = "g" ∨ s = "esc" then (g, [.emit .goBack])
    else ({ g with vpTrace := g.vpTrace ++ [m] }, [])
  | _ => (g, [])

/-- UI state constants of the root model. -/
def stateSidebar : String := "sidebar"
def stateMain : String := "main"
def stateModal : String := "modal"
def stateHelp : String := "help"
def stateCloudSelect : String := "cloudSelect"
def stateDetail : String := "detail"
def stateLogs : String := "logs"
def stateCommand : String := "command"
def stateShell : String := "shell"
def stateGraph : String := "graph"

/-- The root model.  logsModel and shellModel are opaque children modelled
by their message trace. -/
structure AppModel where
  state : String
  prevState : String
  appWidth : Int
  appHeight : Int
  sidebar : ListComp
  cloudList : ListComp
  selectedItem : String
  modalActive : Bool
  mainModel : Option MainChild
  detailModel : Option DetailChild
  graphModel : Option GChild
  logsModel : Option (List AMsg)
  shellModel : Option (List AMsg)
  commandBar : TextInput
  tabMatches : List String
  tabIndex : Nat
deriving DecidableEq, Repr

/-- Environment of external inputs read synchronously by Update
(clientconfig.LoadCloudsYAML). -/
structure Env where
  clouds : Option (List String)

/-- The command-mode alias map. -/
def commandMap : List (String × String) :=
  [("servers", "Servers"), ("srv", "Servers"),
   ("networks", "Networks"), ("net", "Networks"),
   ("floatingips", "Floating IPs"), ("fip", "Floating IPs"),
   ("secgroups", "Security Groups"), ("sg", "Security Groups"),
   ("routers", "Routers"), ("rt", "Routers"),
   ("ports", "Ports"), ("port", "Ports"),
   ("volumes", "Volumes"), ("vol", "Volumes"),
   ("snapshots", "Snapshots"),
   ("projects", "Projects"),
   ("users", "Users"),
   ("token", "Token"),
   ("images", "Images"), ("img", "Images"),
   ("limits", "Limits"), ("quota", "Limits"),
   ("hypervisors", "Hypervisors"), ("hyp", "Hypervisors"),
   ("hv", "Hypervisors"),
   ("az", "Availability Zones"),
   ("flavors", "Flavors"), ("flavor", "Flavors"),
   ("keypairs", "Keypairs"), ("kp", "Keypairs"),
   ("quit", "__quit__"),
   ("zones", "Zones"), ("dns", "Zones"),
   ("lb", "Load Balancers"), ("loadbalancers", "Load Balancers")]

/-- The sections navigateTo can instantiate (no Routers or Ports case). -/
def navigateToSections : List String :=
  ["Servers", "Networks", "Floating IPs", "Security Groups", "Volumes",
   "Snapshots", "Projects", "Users", "Token", "Images", "Limits",
   "Hypervisors", "Availability Zones", "Subnets", "Flavors", "Keypairs",
   "Zones", "Load Balancers"]

/-- The sections the sidebar Enter switch can instantiate. -/
def sidebarEnterSections : List String :=
  ["Servers", "Networks", "Floating IPs", "Security Groups", "Routers",
   "Ports", "Volumes", "Projects", "Token", "Users", "Images", "Limits",
   "Hypervisors", "Availability Zones", "Flavors", "Keypairs", "Zones",
   "Load Balancers"]

def newMainChild (sec : String) : MainChild :=
  { sectionName := sec, rows := [], cursor := 0, trace := [] }

/-- navigateTo: swap in a fresh submodel for a known section, otherwise
leave mainModel untouched. -/
def navigateTo (m : AppModel) (sec : String) : AppModel :=
  if sec ∈ navigateToSections then { m with mainModel := some (newMainChild sec) }
  else m

/-- The detail-model constructor used for each main section in the Enter
drill-down switch (none: the section has no drill-down case). -/
def detailKindFor (sec : String) : Option String :=
  match sec with
  | "Servers" => some "instanceDetail"
  | "Networks" => some "networkSubnets"
  | "Floating IPs" => some "floatingIPDetail"
  | "Security Groups" => some "securityGroupDetail"
  | "Volumes" => some "volumeDetail"
  | "Snapshots" => some "snapshotDetail"
  | "Projects" => some "projectDetail"
  | "Users" => some "userDetail"
  | "Images" => some "imageDetail"
  | "Flavors" => some "flavorDetail"
  | "Keypairs" => some "keypairDetail"
  | "Hypervisors" => some "hypervisorDetail"
  | "Load Balancers" => some "loadBalancerDetail"
  | "Zones" => some "recordSets"
  | "Routers" => some "routerDetail"
  | "Subnets" => some "subnetDetail"
  | "Ports" => some "portDetail"
  | _ => none

/-- Detail kinds whose constructor also receives the name from row[1]. -/
def detailTakesName (kind : String) : Bool :=
  kind = "loadBalancerDetail" ∨ kind = "recordSets"

/-- The graph.ResourceType chosen in the g-key type switch; none means the
default branch (forward g to the detail model). -/
def graphResourceTypeFor (kind : String) : Option String :=
  match kind with
  | "floatingIPDetail" => some "floatingip"
  | "volumeDetail" => some "volume"
  | "networkSubnets" => some "network"
  | "loadBalancerDetail" => some "loadbalancer"
  | _ => none

/-- The dispatch chain after the message-specific handling: command mode,
then per-state forwarding to the active child, in source order. -/
def appDispatch (m : AppModel) (msg : AMsg) : AppModel × List AEff :=
  if m.state = stateCommand then
    match msg with
    | .key s =>
      match s with
      | "esc" =>
        ({ m with
            state := m.prevState, prevState := "",
            commandBar := { m.commandBar with focused := false, value := "" },
            tabMatches := [], tabIndex := 0 }, [])
      | "enter" =>
        let cmd := m.commandBar.value.trim
        if cmd.startsWith "!" then
          let command := cmd.drop 1
          ({ m with
              shellModel := some [], state := stateShell,
              commandBar := { m.commandBar with focused := false, value := "" },
              tabMatches := [], tabIndex := 0 },
           [.startLoad "shell" command])
        else
          match commandMap.lookup cmd with
          | some sec =>
            if sec = "__quit__" then (m, [.quit])
            else
              let m1 := navigateTo m sec
              let m2 := { m1 with
                state := stateMain,
                commandBar := { m1.commandBar with focused := false, value := "" },
                tabMatches := [], tabIndex := 0 }
              (m2, match m2.mainModel with
                | some c => [.startLoad "main" c.sectionName]
                | none => [])
          | none =>
            ({ m with
                commandBar := { m.commandBar with value := "" },
                tabMatches := [], tabIndex := 0 }, [])
      | "tab" =>
        let pfxv := m.commandBar.value.trim
        let cands := sortByKey strKey
          ((commandMap.map (·.1)).filter (fun k => k.startsWith pfxv))
        if cands.length = 0 then (m, [])
        else
          let keep := m.tabMatches.length ≠ 0 ∧
            m.commandBar.value = m.tabMatches.getD m.tabIndex ""
          let tm := if keep then m.tabMatches else cands
          let ti := if keep then (m.tabIndex + 1) % m.tabMatches.length else 0
          ({ m with
              tabMatches := tm, tabIndex := ti,
              commandBar := { m.commandBar with value := tm.getD ti "" } }, [])
      | _ => ({ m with commandBar := m.commandBar.update msg }, [])
    | _ => (m, [])
  else if m.state = stateSidebar then
    ({ m with sidebar := m.sidebar.update msg }, [])
  else if m.state = stateCloudSelect then
    let m1 := { m with cloudList := m.cloudList.update msg }
    match msg with
    | .key s =>
      if s = "enter" ∧ (m1.cloudList.selectedItem).isSome then
        ({ m1 with state := stateSidebar }, [])
      else (m1, [])
    | _ => (m1, [])
  else if m.state = stateMain then
    match m.mainModel with
    | some c => ({ m with mainModel := some (c.update msg) }, [])
    | none => (m, [])
  else if m.state = stateDetail then
    match m.detailModel with
    | some dm =>
      if msg.isKey then (m, [])
      else ({ m with detailModel := some (dm.update msg) }, [])
    | none => (m, [])
  else if m.state = stateGraph then
    match m.graphModel with
    | some g =>
      let gu := gchildUpdate g msg
      ({ m with graphModel := some gu.1 }, gu.2)
    | none => (m, [])
  else if m.state = stateShell then
    match m.shellModel with
    | some t => ({ m with shellModel := some (t ++ [msg]) }, [])
    | none => (m, [])
  else if m.state = stateLogs then
    match m.logsModel with
    | some t => ({ m with logsModel := some (t ++ [msg]) }, [])
    | none => (m, [])
  else (m, [])

/-- The custom-message switch between the key switch and the dispatch chain
(OpenLogsMsg, GoBackMsg, shell.CloseMsg); unmatched messages continue into
the dispatch chain. -/
def appTail (m : AppModel) (msg : AMsg) : AppModel × List AEff :=
  match msg with
  | .openLogs sid =>
    ({ m with logsModel := some [], state := stateLogs }, [.startLoad "logs" sid])
  | .goBack =>
    if m.state = stateLogs then
      ({ m with state := stateDetail, logsModel := none }, [])
    else if m.state = stateDetail then
      match m.detailModel with
      | some dm => ({ m with detailModel := some (dm.update msg) }, [])
      | none => appDispatch m msg
    else if m.state = stateGraph then
      ({ m with state := stateDetail, graphModel := none }, [])
    else appDispatch m msg
  | .shellClose => ({ m with state := stateSidebar, shellModel := none }, [])
  | _ => appDispatch m msg

/-- The g-key case: detail views of graph-eligible kinds swap in a new
graph.GraphModel and start its load; everything else forwards or falls
through to the tail. -/
def appKeyG (m : AppModel) (msg : AMsg) : AppModel × List AEff :=
  if m.state = stateDetail then
    match m.detailModel with
    | some dm =>
      if dm.kind = "instanceDetail" ∧ dm.showingGraph then
        ({ m with detailModel := some (dm.update msg) }, [])
      else
        match graphResourceTypeFor dm.kind with
        | some rt =>
          ({ m with
              graphModel := some (newGraphChild rt dm.resID dm.resName),
              state := stateGraph }, [.startLoad "graph" dm.resID])
        | none => ({ m with detailModel := some (dm.update msg) }, [])
    | none => appTail m msg
  else appTail m msg

/-- The enter-key case: sidebar section selection and main-list drill-down. -/
def appKeyEnter (m : AppModel) (msg : AMsg) : AppModel × List AEff :=
  if m.state = stateSidebar then
    match m.sidebar.selectedItem with
    | some title =>
      if title = "Exit" then (m, [.quit])
      else
        let m1 := { m with selectedItem := title, state := stateMain }
        if title ∈ sidebarEnterSections then
          ({ m1 with mainModel := some (newMainChild title) },
           [.startLoad "main" title])
        else
          (m1, match m1.mainModel with
            | some c => [.startLoad "main" c.sectionName]
            | none => [])
    | none => (m, [])
  else if m.state = stateMain then
    match m.mainModel with
    | some c =>
      if c.sectionName = "Servers" then
        if c.rows = [] then (m, [])
        else
          match c.selectedRow with
          | [] => appTail m msg
          | id :: _ =>
            ({ m with
                detailModel := some
                  { kind := "instanceDetail", resID := id, resName := "",
                    showingGraph := false, trace := [] },
                state := stateDetail }, [.startLoad "detail" id])
      else
        match detailKindFor c.sectionName with
        | some kind =>
          match c.selectedRow with
          | [] => appTail m msg
          | id :: rest =>
            let nm := if detailTakesName kind then rest.headD "" else ""
            ({ m with
                detailModel := some
                  { kind := kind, resID := id, resName := nm,
                    showingGraph := false, trace := [] },
                state := stateDetail }, [.startLoad "detail" id])
        | none => appTail m msg
    | none => appTail m msg
  else appTail m msg

/-- The top-level key switch of AppModel.Update; cases without an early
return fall through into appTail with the (possibly updated) model. -/
def appKey (env : Env) (m : AppModel) (msg : AMsg) (s : String) :
    AppModel × List AEff :=
  match s with
  | "ctrl+c" => (m, [.quit])
  | "q" => (m, [.quit])
  | "?" =>
    if m.state ≠ stateHelp then
      appTail { m with prevState := m.state, state := stateHelp } msg
    else appTail m msg
  | "esc" =>
    if m.state = stateHelp then
      ({ m with state := m.prevState, prevState := "" }, [])
    else if m.state = stateDetail then
      ({ m with state := stateMain, modalActive := false }, [])
    else if m.state ≠ stateSidebar then
      ({ m with
          state := stateSidebar, modalActive := false,
          mainModel := none }, [])
    else appTail m msg
  | "c" =>
    match env.clouds with
    | none => (m, [])
    | some names =>
      ({ m with
          cloudList :=
            { items := names, cursor := 0, compWidth := 30, compHeight := 10,
              trace := [] },
          state := stateCloudSelect }, [])
  | ":" =>
    ({ m with
        prevState := m.state, state := stateCommand,
        commandBar := { m.commandBar with focused := true, value := "" } }, [])
  | "g" => appKeyG m msg
  | "enter" => appKeyEnter m msg
  | _ => appTail m msg

/-- AppModel.Update, one Bubble Tea step: (new model, effects). -/
def appUpdate (env : Env) (m : AppModel) (msg : AMsg) : AppModel × List AEff :=
  match msg with
  | .window w h =>
    let m1 := { m with
      appWidth := w, appHeight := h,
      sidebar := { m.sidebar with compWidth := w / 5, compHeight := h - 4 } }
    let m2 := match m1.mainModel with
      | some c => { m1 with mainModel := some (c.update msg) }
      | none => m1
    let m3 := if m2.state = stateLogs then
        match m2.logsModel with
        | some t => { m2 with logsModel := some (t ++ [msg]) }
        | none => m2
      else m2
    let m4 := if m3.state = stateShell then
        match m3.shellModel with
        | some t => { m3 with shellModel := some (t ++ [msg]) }
        | none => m3
      else m3
    (m4, [])
  | .key s => appKey env m msg s
  | _ => appTail m msg

end App

/-! ## Execution model of the buildTopology fan-out (sync.WaitGroup semantics)

The seven goroutines may complete in any order; wg.Wait() blocks the calling
goroutine until all seven have called Done(), and only then is the combined
result produced.  A phase records which fetches have completed and whether
the function has returned its result. -/

structure TopoPhase where
  dInstances : Bool
  dNetworks : Bool
  dSubnets : Bool
  dPorts : Bool
  dFips : Bool
  dVolumes : Bool
  dRouters : Bool
  out : Option (Except String String)
deriving Repr

def TopoPhase.init : TopoPhase :=
  { dInstances := false, dNetworks := false, dSubnets := false
    dPorts := false, dFips := false, dVolumes := false, dRouters := false
    out := none }

/-- All seven goroutines have called wg.Done(). -/
def TopoPhase.allDone (s : TopoPhase) : Bool :=
  s.dInstances && s.dNetworks && s.dSubnets && s.dPorts && s.dFips &&
    s.dVolumes && s.dRouters

/-- One scheduling step: any pending fetch may complete at any time (the
goroutines run concurrently); the aggregated result can only be published
once every fetch is done (wg.Wait), and it is exactly buildTopology of the
seven fetch results. -/
inductive TopoStep (f : TopoFetches) : TopoPhase → TopoPhase → Prop where
  | instancesDone (s : TopoPhase) : TopoStep f s { s with dInstances := true }
  | networksDone (s : TopoPhase) : TopoStep f s { s with dNetworks := true }
  | subnetsDone (s : TopoPhase) : TopoStep f s { s with dSubnets := true }
  | portsDone (s : TopoPhase) : TopoStep f s { s with dPorts := true }
  | fipsDone (s : TopoPhase) : TopoStep f s { s with dFips := true }
  | volumesDone (s : TopoPhase) : TopoStep f s { s with dVolumes := true }
  | routersDone (s : TopoPhase) : TopoStep f s { s with dRouters := true }
  | publish (s : TopoPhase) (hall : s.allDone = true) (hout : s.out = none) :
      TopoStep f s { s with out := some (buildTopology f) }

/-- Reflexive-transitive closure of the scheduling steps. -/
inductive TopoReaches (f : TopoFetches) : TopoPhase → TopoPhase → Prop where
  | refl (s : TopoPhase) : TopoReaches f s s
  | step {s t u : TopoPhase} : TopoStep f s t → TopoReaches f t u →
      TopoReaches f s u

/-- Invariant: any published output is the full join and all fetches had
completed when it was published. -/
def TopoInv (f : TopoFetches) (s : TopoPhase) : Prop :=
  s.out = none ∨ (s.allDone = true ∧ s.out = some (buildTopology f))

theorem topoStep_inv {f : TopoFetches} {s t : TopoPhase}
    (hst : TopoStep f s t) (hs : TopoInv f s) : TopoInv f t := by
  cases hst with
  | publish hall hout =>
    exact Or.inr ⟨hall, rfl⟩
  | instancesDone =>
    rcases hs with h | ⟨hall, hout⟩
    · exact Or.inl h
    · exact Or.inr ⟨by simp_all [TopoPhase.allDone], hout⟩
  | networksDone =>
    rcases hs with h | ⟨hall, hout⟩
    · exact Or.inl h
    · exact Or.inr ⟨by simp_all [TopoPhase.allDone], hout⟩
  | subnetsDone =>
    rcases hs with h | ⟨hall, hout⟩
    · exact Or.inl h
    · exact Or.inr ⟨by simp_all [TopoPhase.allDone], hout⟩
  | portsDone =>
    rcases hs with h | ⟨hall, hout⟩
    · exact Or.inl h
    · exact Or.inr ⟨by simp_all [TopoPhase.allDone], hout⟩
  | fipsDone =>
    rcases hs with h | ⟨hall, hout⟩
    · exact Or.inl h
    · exact Or.inr ⟨by simp_all [TopoPhase.allDone], hout⟩
  | volumesDone =>
    rcases hs with h | ⟨hall, hout⟩
    · exact Or.inl h
    · exact Or.inr ⟨by simp_all [TopoPhase.allDone], hout⟩
  | routersDone =>
    rcases hs with h | ⟨hall, hout⟩
    · exact Or.inl h
    · exact Or.inr ⟨by simp_all [TopoPhase.allDone], hout⟩

theorem topoReaches_inv {f : TopoFetches} {s t : TopoPhase}
    (h : TopoReaches f s t) (hs : TopoInv f s) : TopoInv f t := by
  induction h with
  | refl s => exact hs
  | step hst _ ih => exact ih (topoStep_inv hst hs)

/-! ## Helper lemmas about the topology line structure -/

theorem mem_sortByKey {α β : Type} [LinearOrder β] (k : α → β) (x : α)
    (l : List α) : x ∈ sortByKey k l ↔ x ∈ l := by
  induction l with
  | nil => simp [sortByKey]
  | cons a t ih =>
    simp [sortByKey, mem_insertByKey, ih]

theorem snd_mem_of_mem_enum {α : Type} {p : Nat × α} {l : List α}
    (h : p ∈ l.enum) : p.2 ∈ l := by
  obtain ⟨hlt, hx⟩ := List.mem_enum (x := p.2) (i := p.1) (by
    cases p; exact h)
  rw [hx]
  exact List.getElem_mem hlt

theorem filterMap_flatMap {α β γ : Type} (l : List α) (g : α → List β)
    (f : β → Option γ) :
    (l.flatMap g).filterMap f = l.flatMap (fun a => (g a).filterMap f) := by
  induction l with
  | nil => simp
  | cons a t ih => simp [List.flatMap_cons, List.filterMap_append, ih]

/-- The network name a line shows, when it is a network header. -/
def TLine.headerName : TLine → Option String
  | .netHeader nm _ => some nm
  | _ => none

/-- The server name a line shows, when it is a server line. -/
def TLine.serverName : TLine → Option String
  | .server _ nm _ => some nm
  | _ => none

/-- The fixed ip a line shows, when it is a port line. -/
def TLine.portIP : TLine → Option String
  | .port _ ip => some ip
  | _ => none

/-- The floating-ip address a line shows, when it shows one (either in a
network tree or in the unattached section). -/
def TLine.fipAddr : TLine → Option String
  | .fip _ a => some a
  | .unFip _ a => some a
  | _ => none

def netHeaderNamesOf (ls : List TLine) : List String :=
  ls.filterMap TLine.headerName

def serverNamesOf (ls : List TLine) : List String :=
  ls.filterMap TLine.serverName

def portIPsOf (ls : List TLine) : List String :=
  ls.filterMap TLine.portIP

theorem headerNames_fipTree (fips : List FipR) :
    netHeaderNamesOf (fipTreeLines fips) = [] := by
  simp only [netHeaderNamesOf, fipTreeLines, List.filterMap_map]
  rw [List.filterMap_eq_nil]
  intro a _
  rfl

theorem headerNames_portTree (fipList : List FipR) (volCount : Nat)
    (ports : List PortR) :
    netHeaderNamesOf (portTreeLines fipList volCount ports) = [] := by
  simp only [netHeaderNamesOf, portTreeLines, filterMap_flatMap]
  rw [List.flatMap_eq_nil_iff]
  intro p _
  have h := headerNames_fipTree (portFIPs fipList p.2.id)
  simp only [netHeaderNamesOf] at h
  simp [List.filterMap_cons, TLine.headerName, h]

theorem headerNames_volTree (vols : List VolumeR) :
    netHeaderNamesOf (volTreeLines vols) = [] := by
  simp only [netHeaderNamesOf, volTreeLines, List.filterMap_map]
  rw [List.filterMap_eq_nil]
  intro a _
  rfl

theorem headerNames_serverTree (i : TopoInput) (nid : String) :
    netHeaderNamesOf (serverTreeLines i nid) = [] := by
  simp only [netHeaderNamesOf, serverTreeLines, filterMap_flatMap]
  rw [List.flatMap_eq_nil_iff]
  intro p _
  have h1 := headerNames_portTree i.fipList
    (serverVolumes i.volList (serverMapGet i.srvList p.2).id).length
    (sortByKey (fun q => strKey q.id)
      (serverPorts i.portList (serverMapGet i.srvList p.2).id))
  have h2 := headerNames_volTree
    (serverVolumes i.volList (serverMapGet i.srvList p.2).id)
  simp only [netHeaderNamesOf] at h1 h2
  simp [List.filterMap_cons, List.filterMap_append, TLine.headerName, h1, h2]

theorem headerNames_routerTree (i : TopoInput) (nid : String) :
    netHeaderNamesOf (routerTreeLines i nid) = [] := by
  simp only [netHeaderNamesOf, routerTreeLines, List.filterMap_map]
  rw [List.filterMap_eq_nil]
  intro a _
  rfl

theorem headerNames_unattached (i : TopoInput) :
    netHeaderNamesOf (unattachedLines i) = [] := by
  simp only [netHeaderNamesOf, unattachedLines]
  split
  · simp only [List.filterMap_cons, List.filterMap_append, List.filterMap_map]
    rw [List.filterMap_eq_nil.2, List.filterMap_eq_nil.2]
    · rfl
    · intro a _; rfl
    · intro a _; rfl
  · rfl

theorem headerNames_netBlock (i : TopoInput) (nid : String) :
    netHeaderNamesOf (netBlock i nid) = [(netMapGet i.netList nid).name] := by
  simp only [netBlock, netHeaderNamesOf, List.filterMap_cons,
    List.filterMap_append]
  have h1 := headerNames_serverTree i nid
  have h2 := headerNames_routerTree i nid
  simp only [netHeaderNamesOf] at h1 h2
  simp [TLine.headerName, h1, h2]

theorem headerNames_flatMap (i : TopoInput) (ids : List String) :
    netHeaderNamesOf (ids.flatMap (netBlock i)) =
      ids.map (fun nid => (netMapGet i.netList nid).name) := by
  induction ids with
  | nil => rfl
  | cons a t ih =>
    have h := headerNames_netBlock i a
    simp only [netHeaderNamesOf, List.flatMap_cons, List.filterMap_append]
      at h ih ⊢
    simp [h, ih]

theorem filterMap_blocks {α β γ : Type} (q : List (Nat × α))
    (block : Nat × α → List β) (f : β → Option γ) (v : α → γ)
    (hb : ∀ p, (block p).filterMap f = [v p.2]) :
    (q.flatMap block).filterMap f = q.map (fun p => v p.2) := by
  induction q with
  | nil => rfl
  | cons a t ih => simp [List.flatMap_cons, List.filterMap_append, hb, ih]

theorem serverNames_fipTree (fips : List FipR) :
    serverNamesOf (fipTreeLines fips) = [] := by
  simp only [serverNamesOf, fipTreeLines, List.filterMap_map]
  rw [List.filterMap_eq_nil_iff]
  intro a _
  rfl

theorem serverNames_portTree (fipList : List FipR) (volCount : Nat)
    (ports : List PortR) :
    serverNamesOf (portTreeLines fipList volCount ports) = [] := by
  simp only [serverNamesOf, portTreeLines, filterMap_flatMap]
  rw [List.flatMap_eq_nil_iff]
  intro p _
  have h := serverNames_fipTree (portFIPs fipList p.2.id)
  simp only [serverNamesOf] at h
  simp [List.filterMap_cons, TLine.serverName, h]

theorem serverNames_volTree (vols : List VolumeR) :
    serverNamesOf (volTreeLines vols) = [] := by
  simp only [serverNamesOf, volTreeLines, List.filterMap_map]
  rw [List.filterMap_eq_nil_iff]
  intro a _
  rfl

/-- The server names of one network block appear in server-name-sorted
order: exactly the sorted reachable server ids, looked up in serverMap. -/
theorem serverNames_serverTree (i : TopoInput) (nid : String) :
    serverNamesOf (serverTreeLines i nid) =
      (sortByKey (fun sid => strKey (serverMapGet i.srvList sid).name)
        (netServerIDs i.portList nid)).map
        (fun sid => (serverMapGet i.srvList sid).name) := by
  simp only [serverNamesOf, serverTreeLines]
  rw [filterMap_blocks _ _ _
    (fun sid => (serverMapGet i.srvList sid).name) ?_]
  · rw [show (fun p : Nat × String => (serverMapGet i.srvList p.2).name) =
      ((fun sid => (serverMapGet i.srvList sid).name) ∘ Prod.snd) from rfl]
    rw [← List.map_map, List.enum_map_snd]
  · intro p
    have h1 := serverNames_portTree i.fipList
      (serverVolumes i.volList (serverMapGet i.srvList p.2).id).length
      (sortByKey (fun q => strKey q.id)
        (serverPorts i.portList (serverMapGet i.srvList p.2).id))
    have h2 := serverNames_volTree
      (serverVolumes i.volList (serverMapGet i.srvList p.2).id)
    simp only [serverNamesOf] at h1 h2
    simp [List.filterMap_cons, List.filterMap_append, TLine.serverName, h1, h2]

/-- The network headers of the whole render are the name-sorted networks. -/
theorem netHeaderNames_buildTopology (i : TopoInput) :
    netHeaderNamesOf (buildTopologyLines i) =
      (sortedNetIDs i).map (fun nid => (netMapGet i.netList nid).name) := by
  simp only [netHeaderNamesOf, buildTopologyLines, List.filterMap_append]
  have h1 := headerNames_flatMap i (sortedNetIDs i)
  have h2 := headerNames_unattached i
  simp only [netHeaderNamesOf] at h1 h2
  simp [h1, h2]

/-! ## Where floating-ip lines can come from -/

theorem fipAddr_of_fipTree {fips : List FipR} {l : TLine} {a : String}
    (hl : l ∈ fipTreeLines fips) (ha : l.fipAddr = some a) :
    ∃ g ∈ fips, g.floatingIP = a := by
  simp only [fipTreeLines, List.mem_map] at hl
  obtain ⟨fi, hfi, rfl⟩ := hl
  refine ⟨fi.2, snd_mem_of_mem_enum hfi, ?_⟩
  simpa [TLine.fipAddr] using ha

theorem fipAddr_of_portTree {fipList : List FipR} {volCount : Nat}
    {ports : List PortR} {l : TLine} {a : String}
    (hl : l ∈ portTreeLines fipList volCount ports)
    (ha : l.fipAddr = some a) :
    ∃ p ∈ ports, ∃ g ∈ portFIPs fipList p.id, g.floatingIP = a := by
  simp only [portTreeLines, List.mem_flatMap] at hl
  obtain ⟨pp, hpp, hmem⟩ := hl
  rcases List.mem_cons.1 hmem with rfl | hfip
  · simp [TLine.fipAddr] at ha
  · exact ⟨pp.2, snd_mem_of_mem_enum hpp, fipAddr_of_fipTree hfip ha⟩

theorem fipAddr_of_volTree {vols : List VolumeR} {l : TLine} {a : String}
    (hl : l ∈ volTreeLines vols) (ha : l.fipAddr = some a) : False := by
  simp only [volTreeLines, List.mem_map] at hl
  obtain ⟨vv, _, rfl⟩ := hl
  simp [TLine.fipAddr] at ha

theorem fipAddr_of_routerTree {i : TopoInput} {nid : String} {l : TLine}
    {a : String} (hl : l ∈ routerTreeLines i nid)
    (ha : l.fipAddr = some a) : False := by
  simp only [routerTreeLines, List.mem_map] at hl
  obtain ⟨rr, _, rfl⟩ := hl
  simp [TLine.fipAddr] at ha

theorem fipAddr_of_serverTree {i : TopoInput} {nid : String} {l : TLine}
    {a : String} (hl : l ∈ serverTreeLines i nid)
    (ha : l.fipAddr = some a) :
    ∃ p ∈ i.portList, p.deviceID ≠ "" ∧
      ∃ g ∈ i.fipList, g.portID ≠ "" ∧ g.portID = p.id ∧ g.floatingIP = a := by
  simp only [serverTreeLines, List.mem_flatMap] at hl
  obtain ⟨ss, _, hmem⟩ := hl
  rcases List.mem_cons.1 hmem with rfl | hrest
  · simp [TLine.fipAddr] at ha
  rcases List.mem_append.1 hrest with hport | hvol
  · obtain ⟨p, hp, g, hg, hga⟩ := fipAddr_of_portTree hport ha
    have hp2 := (mem_sortByKey _ _ _).1 hp
    simp only [serverPorts, List.mem_filter, decide_eq_true_eq] at hp2
    simp only [portFIPs, List.mem_filter, decide_eq_true_eq] at hg
    exact ⟨p, hp2.1, hp2.2.1, g, hg.1, hg.2.1, hg.2.2, hga⟩
  · exact absurd (fipAddr_of_volTree hvol ha) (fun h => h)

theorem fipAddr_of_netBlock {i : TopoInput} {nid : String} {l : TLine}
    {a : String} (hl : l ∈ netBlock i nid) (ha : l.fipAddr = some a) :
    ∃ p ∈ i.portList, p.deviceID ≠ "" ∧
      ∃ g ∈ i.fipList, g.portID ≠ "" ∧ g.portID = p.id ∧ g.floatingIP = a := by
  simp only [netBlock] at hl
  rcases List.mem_cons.1 hl with rfl | hrest
  · simp [TLine.fipAddr] at ha
  rcases List.mem_append.1 hrest with hsr | hblank
  · rcases List.mem_append.1 hsr with hs | hr
    · exact fipAddr_of_serverTree hs ha
    · exact absurd (fipAddr_of_routerTree hr ha) (fun h => h)
  · rcases List.mem_singleton.1 hblank with rfl
    simp [TLine.fipAddr] at ha

theorem fipAddr_of_unattached {i : TopoInput} {l : TLine} {a : String}
    (hl : l ∈ unattachedLines i) (ha : l.fipAddr = some a) :
    ∃ g ∈ i.fipList, g.portID = "" ∧ g.floatingIP = a := by
  simp only [unattachedLines] at hl
  split at hl
  · rcases List.mem_cons.1 hl with rfl | hrest
    · simp [TLine.fipAddr] at ha
    rcases List.mem_append.1 hrest with hfip | hvol
    · simp only [List.mem_map] at hfip
      obtain ⟨ff, hff, rfl⟩ := hfip
      have hmem := snd_mem_of_mem_enum hff
      simp only [List.mem_filter, decide_eq_true_eq] at hmem
      exact ⟨ff.2, hmem.1, hmem.2, by simpa [TLine.fipAddr] using ha⟩
    · simp only [List.mem_map] at hvol
      obtain ⟨vv, _, rfl⟩ := hvol
      simp [TLine.fipAddr] at ha
  · simp at hl

/-! ## Claim C10 -/

/-- C10: in the full-topology render, a floating IP with a non-empty PortID
whose port is not attached to any server (empty DeviceID, e.g. a router
gateway port) appears nowhere in the output: neither under a network tree
nor in the "Unattached resources" section (which only collects floating IPs
with an empty PortID).  The uniqueness hypothesis pins the address to this
floating IP, as addresses do in practice. -/
theorem c10_gateway_fip_unrendered (i : TopoInput) (f : FipR)
    (_hf : f ∈ i.fipList) (hne : f.portID ≠ "")
    (hgw : ∀ p ∈ i.portList, p.id = f.portID → p.deviceID = "")
    (huniq : ∀ g ∈ i.fipList, g.floatingIP = f.floatingIP → g = f) :
    ∀ l ∈ buildTopologyLines i, l.fipAddr ≠ some f.floatingIP := by
  intro l hl ha
  simp only [buildTopologyLines] at hl
  rcases List.mem_append.1 hl with hm | hu
  · obtain ⟨nid, _, hblk⟩ := List.mem_flatMap.1 hm
    obtain ⟨p, hp, hdev, g, hg, _, hgid, hga⟩ := fipAddr_of_netBlock hblk ha
    have hgf : g = f := huniq g hg hga
    subst hgf
    exact hdev (hgw p hp hgid.symm)
  · obtain ⟨g, hg, hgempty, hga⟩ := fipAddr_of_unattached hu ha
    have hgf : g = f := huniq g hg hga
    subst hgf
    exact hne hgempty

/-- A snapshot with a floating IP "203.0.113.9" bound to port p9, whose
DeviceID is empty (a router gateway port). -/
def c10Input : TopoInput :=
  { srvList := [⟨"s1", "web1", "ACTIVE"⟩]
    netList := [⟨"n1", "alpha", ["sub1"]⟩]
    subList := [⟨"sub1", "10.0.1.0/24"⟩]
    portList := [⟨"p1", "s1", "n1", "m1", ["10.0.1.10"]⟩,
                 ⟨"p9", "", "n1", "m9", []⟩]
    fipList := [⟨"p1", "203.0.113.5"⟩, ⟨"p9", "203.0.113.9"⟩,
                ⟨"", "203.0.113.77"⟩]
    volList := []
    routerList := [⟨"r1", "n1"⟩] }

def c10Fip : FipR := ⟨"p9", "203.0.113.9"⟩

theorem c10_gateway_fip_unrendered_witness :
    (c10Fip ∈ c10Input.fipList ∧ c10Fip.portID ≠ "" ∧
      (∀ p ∈ c10Input.portList, p.id = c10Fip.portID → p.deviceID = "") ∧
      (∀ g ∈ c10Input.fipList,
        g.floatingIP = c10Fip.floatingIP → g = c10Fip)) ∧
    (∀ l ∈ buildTopologyLines c10Input,
      l.fipAddr ≠ some c10Fip.floatingIP) := by
  refine ⟨⟨by decide, by decide, by decide, by decide⟩, ?_⟩
  exact c10_gateway_fip_unrendered c10Input c10Fip (by decide) (by decide)
    (by decide) (by decide)

/-! ## Claim C4 -/

/-- A snapshot where the two ports of one server carry fixed IPs whose
rendered texts are in descending order while the port ids are ascending. -/
def c4Input : TopoInput :=
  { srvList := [⟨"s1", "srv", "ACTIVE"⟩]
    netList := [⟨"n1", "net", []⟩]
    subList := []
    portList := [⟨"a", "s1", "n1", "", ["9.9.9.9"]⟩,
                 ⟨"b", "s1", "n1", "", ["1.1.1.1"]⟩]
    fipList := []
    volList := []
    routerList := [] }

/-- C4 counterexample: within a server, port lines are emitted in port-id
order, not display-text (or name) ascending order: the port displaying
"9.9.9.9" (id "a") precedes the one displaying "1.1.1.1" (id "b"), so the
rendered level is not sorted by display name. -/
theorem c4_counterexample :
    portIPsOf (buildTopologyLines c4Input) = ["9.9.9.9", "1.1.1.1"] ∧
    ¬ List.Sorted (· ≤ ·)
      ((portIPsOf (buildTopologyLines c4Input)).map strKey) := by
  refine ⟨by decide, by decide⟩

/-- C4 amended: the implemented deterministic ordering.  Network headers
appear in network-name-sorted order over the whole render; within each
network block the server lines are in server-name-sorted order; the ports
rendered under a server are sorted by port id (not by display name).
Renders are pure functions of the snapshot, so a fixed snapshot and
iteration order yields identical output. -/
theorem c4_render_order (i : TopoInput) (nid sid : String) :
    List.Sorted (· ≤ ·)
      ((netHeaderNamesOf (buildTopologyLines i)).map strKey) ∧
    List.Sorted (· ≤ ·)
      ((serverNamesOf (serverTreeLines i nid)).map strKey) ∧
    List.Sorted (· ≤ ·)
      ((sortByKey (fun p => strKey p.id) (serverPorts i.portList sid)).map
        (fun p => strKey p.id)) := by
  refine ⟨?_, ?_, sortByKey_map_sorted _ _⟩
  · rw [netHeaderNames_buildTopology, List.map_map]
    have h := sortByKey_map_sorted
      (fun nid => strKey (netMapGet i.netList nid).name) (i.netList.map (·.id))
    simpa [sortedNetIDs, Function.comp] using h
  · rw [serverNames_serverTree, List.map_map]
    have h := sortByKey_map_sorted
      (fun sid => strKey (serverMapGet i.srvList sid).name)
      (netServerIDs i.portList nid)
    simpa [Function.comp] using h

/-! ## Claim C9 -/

/-- C9: buildTopology is a join barrier.  In the scheduling model the seven
sub-fetches complete in any interleaving; any reachable phase that has
published a result r has all seven fetches completed, and r is exactly
buildTopology of all seven results (first error, or the full render). -/
theorem c9_join_barrier (f : TopoFetches) (s : TopoPhase)
    (r : Except String String) (hre : TopoReaches f TopoPhase.init s)
    (hout : s.out = some r) :
    s.allDone = true ∧ r = buildTopology f := by
  have hinv := topoReaches_inv hre (Or.inl rfl)
  rcases hinv with h | ⟨hall, hsome⟩
  · rw [h] at hout
    cases hout
  · refine ⟨hall, ?_⟩
    rw [hout] at hsome
    exact Option.some_inj.1 hsome

/-- A concrete run of the fan-out: all seven fetches succeed. -/
def c9F : TopoFetches :=
  { instancesR := .ok [⟨"s1", "web1", "ACTIVE"⟩]
    networksR := .ok [⟨"n1", "alpha", []⟩]
    subnetsR := .ok []
    portsR := .ok []
    fipsR := .ok []
    volumesR := .ok []
    routersR := .ok [] }

def c9Final : TopoPhase :=
  { dInstances := true, dNetworks := true, dSubnets := true, dPorts := true
    dFips := true, dVolumes := true, dRouters := true
    out := some (buildTopology c9F) }

theorem c9_join_barrier_witness :
    TopoReaches c9F TopoPhase.init c9Final ∧
    c9Final.out = some (buildTopology c9F) ∧
    (c9Final.allDone = true ∧ buildTopology c9F = buildTopology c9F) := by
  have htr : TopoReaches c9F TopoPhase.init c9Final :=
    .step (.instancesDone _) (.step (.networksDone _) (.step (.subnetsDone _)
      (.step (.portsDone _) (.step (.fipsDone _) (.step (.volumesDone _)
        (.step (.routersDone _)
          (.step (.publish _ rfl rfl) (.refl _))))))))
  refine ⟨htr, rfl, ?_⟩
  have h := c9_join_barrier c9F c9Final (buildTopology c9F) htr rfl
  exact ⟨h.1, rfl⟩

/-! ## Claim C1 -/

/-- A provider whose interface listing fails; the other calls are benign. -/
def c1Env : GraphEnv :=
  { listServerInterfaces := fun _ => .error "boom"
    listServerVolumes := fun _ => .ok []
    listFloatingIPs := .ok []
    getNetwork := fun _ => none
    listPortsByNetwork := fun _ => .ok []
    getVolume := fun _ => .error "not found"
    getInstance := fun _ => .error "not found"
    listListeners := fun _ => .ok []
    listPools := fun _ => .ok [] }

/-- C1 counterexample: in the generic graph builder (graph.go server case)
a failing ListServerInterfaces sub-fetch does NOT fail the build: the
returned error is nil and a (partial) center-box graph is rendered. -/
theorem c1_counterexample :
    (GraphM.buildGraph c1Env .server "s1" "web1" false).2 = none ∧
    (GraphM.buildGraph c1Env .server "s1" "web1" false).1 ≠ "" := by
  exact ⟨rfl, by decide⟩

/-- C1 amended: the full-topology build fails with the first collected
wrapped error and yields no content, and succeeds with the rendered content
when no fetch fails; the server-graph build propagates only the interface
and volume fetch errors (with empty content).  (Its floating-ip and network
lookups, and every sub-fetch of the generic graph builder, are ignored on
error, as the counterexample shows.) -/
theorem c1_error_propagation (f : TopoFetches) (env : GraphEnv) (w : Int)
    (id nm e : String) :
    (∀ msg rest, topoErrors f = msg :: rest →
      buildTopology f = .error msg) ∧
    (topoErrors f = [] →
      buildTopology f = .ok (buildTopologyContent f.input)) ∧
    (env.listServerInterfaces id = .error e →
      SGraph.buildGraph env w id nm = ("", some e)) ∧
    (∀ ifaces, env.listServerInterfaces id = .ok ifaces →
      env.listServerVolumes id = .error e →
      SGraph.buildGraph env w id nm = ("", some e)) := by
  refine ⟨?_, ?_, ?_, ?_⟩
  · intro msg rest h
    simp [buildTopology, h]
  · intro h
    simp [buildTopology, h]
  · intro h
    simp [SGraph.buildGraph, h]
  · intro ifaces h1 h2
    simp [SGraph.buildGraph, h1, h2]

/-- Fetch results where only the ports listing fails. -/
def c1Fetches : TopoFetches :=
  { instancesR := .ok []
    networksR := .ok []
    subnetsR := .ok []
    portsR := .error "boom"
    fipsR := .ok []
    volumesR := .ok []
    routersR := .ok [] }

theorem c1_error_propagation_witness :
    (topoErrors c1Fetches = ["list ports: boom"] ∧
      c1Env.listServerInterfaces "s1" = .error "boom") ∧
    buildTopology c1Fetches = .error "list ports: boom" ∧
    SGraph.buildGraph c1Env 80 "s1" "web1" = ("", some "boom") := by
  refine ⟨⟨rfl, rfl⟩, ?_, ?_⟩
  · exact (c1_error_propagation c1Fetches c1Env 80 "s1" "web1" "boom").1
      "list ports: boom" [] rfl
  · exact (c1_error_propagation c1Fetches c1Env 80 "s1" "web1"
      "boom").2.2.1 rfl

/-! ## Claim C3 -/

/-- Twelve interfaces for one server. -/
def c3Ifaces : List InterfaceR :=
  (List.range 12).map (fun n =>
    { portID := "p" ++ toString n, networkID := "n1"
      fixedIPs := ["10.0.0." ++ toString n] })

/-- C3 counterexample: a port column of 12 boxes is not rendered as 7 item
boxes plus a "+5 more" box; the implemented cap keeps the first 8 boxes and
appends a "+4 more" box. -/
theorem c3_counterexample :
    SGraph.capPorts (SGraph.portColOf c3Ifaces) ≠
      (SGraph.portColOf c3Ifaces).take 7 ++ [roundedBox "+5 more"] ∧
    SGraph.capPorts (SGraph.portColOf c3Ifaces) =
      (SGraph.portColOf c3Ifaces).take 8 ++ [roundedBox "+4 more"] ∧
    c3Ifaces.length = 12 := by
  refine ⟨by decide, by decide, by decide⟩

/-- C3 amended: only the port column of the server graph is capped, at 8:
a column of N > 8 boxes renders the first 8 and one "+(N-8) more" box
(9 boxes in total); the network graph renders only the first five port
boxes with no synthetic overflow box. -/
theorem c3_port_cap (col : List String) (h : 8 < col.length)
    (ports : List PortR) :
    (SGraph.capPorts col =
      col.take 8 ++
        [roundedBox ("+" ++ toString (col.length - 8) ++ " more")]) ∧
    (SGraph.capPorts col).length = 9 ∧
    (ports.take (min 5 ports.length) = ports.take 5) := by
  have hgt : col.length > SGraph.maxPorts := h
  refine ⟨?_, ?_, ?_⟩
  · unfold SGraph.capPorts
    rw [if_pos hgt]
    rfl
  · unfold SGraph.capPorts
    rw [if_pos hgt]
    simp only [List.length_append, List.length_take, List.length_cons,
      List.length_nil, SGraph.maxPorts]
    simp only [SGraph.maxPorts] at hgt
    omega
  · rcases Nat.le_total 5 ports.length with h5 | h5
    · rw [Nat.min_eq_left h5]
    · rw [Nat.min_eq_right h5, List.take_length, List.take_of_length_le h5]

theorem c3_port_cap_witness :
    8 < (SGraph.portColOf c3Ifaces).length ∧
    (SGraph.capPorts (SGraph.portColOf c3Ifaces) =
      (SGraph.portColOf c3Ifaces).take 8 ++
        [roundedBox ("+" ++
          toString ((SGraph.portColOf c3Ifaces).length - 8) ++ " more")]) ∧
    (SGraph.capPorts (SGraph.portColOf c3Ifaces)).length = 9 := by
  have h := c3_port_cap (SGraph.portColOf c3Ifaces) (by decide) []
  exact ⟨by decide, h.1, h.2.1⟩

/-! ## Claim C8 -/

/-- A provider for a network with one wide port box. -/
def c8Env : GraphEnv :=
  { listServerInterfaces := fun _ => .ok []
    listServerVolumes := fun _ => .ok []
    listFloatingIPs := .ok []
    getNetwork := fun _ => none
    listPortsByNetwork := fun _ =>
      .ok [{ id := "p1", deviceID := "", networkID := "n1"
             macAddress := "aa:bb:cc:dd:ee:ff", fixedIPs := [] }]
    getVolume := fun _ => .error "not found"
    getInstance := fun _ => .error "not found"
    listListeners := fun _ => .ok []
    listPools := fun _ => .ok [] }

/-- The vertical stacking the spec's words describe for this render: center
box, then the single column as its own vertical block, stacked top to
bottom.  (Definition follows the spec, for comparison with the source.) -/
def c8SpecVertical : String :=
  joinVerticalLeft
    [roundedBox ("Network\n" ++ "net1"),
     joinVerticalLeft [roundedBox ("Port\n" ++ "aa:bb:cc:dd:ee:ff")]]

/-- C8 counterexample: the generic graph builder consults no viewport width
at all.  With a 10-cell viewport, the rendered width of the network graph
(center box + 3-cell connector allowance + column width) exceeds 10, yet the
output is the horizontal join, not the vertical stacking the claim
requires. -/
theorem c8_counterexample :
    (GraphM.buildGraph c8Env .network "n1" "net1" false).1 =
      joinHorizontalCenter (GraphM.networkRow c8Env "n1" "net1") ∧
    (10 : Int) < (lipWidth (roundedBox ("Network\n" ++ "net1")) : Int) + 3 +
      (SGraph.maxColWidth [roundedBox ("Port\n" ++ "aa:bb:cc:dd:ee:ff")] :
        Int) ∧
    (GraphM.buildGraph c8Env .network "n1" "net1" false).1 ≠
      c8SpecVertical := by
  refine ⟨rfl, by decide, by decide⟩

/-- C8 amended: only the server graph is width-aware.  Its stacking
predicate holds exactly when the captured viewport width is positive and
smaller than the total horizontal width (server box plus, per non-empty
column, a 3-cell connector allowance plus the column width); on a
successful build the body is the vertical stacking under that predicate and
the horizontal join otherwise.  The generic graph builder (network case)
always renders the horizontal join, whatever the viewport width. -/
theorem c8_stacking_threshold (vpWidth : Int) (serverBox : String)
    (portCol netCol fipCol : List String) (env : GraphEnv) (id nm : String) :
    (SGraph.sgShouldStack vpWidth serverBox portCol netCol fipCol = true ↔
      0 < vpWidth ∧
        vpWidth < SGraph.sgTotalWidth serverBox portCol netCol fipCol) ∧
    (∀ ifaces vols, env.listServerInterfaces id = .ok ifaces →
      env.listServerVolumes id = .ok vols →
      SGraph.buildGraph env vpWidth id nm =
        (SGraph.volPartOf vols ++
          (if SGraph.sgShouldStack vpWidth (roundedBox ("Server: " ++ nm))
              (SGraph.capPorts (SGraph.portColOf ifaces))
              (SGraph.netColOf env ifaces)
              (SGraph.fipColOf (env.listFloatingIPs.toOption.getD []) ifaces)
           then SGraph.stackedBody (roundedBox ("Server: " ++ nm))
              (SGraph.capPorts (SGraph.portColOf ifaces))
              (SGraph.netColOf env ifaces)
              (SGraph.fipColOf (env.listFloatingIPs.toOption.getD []) ifaces)
           else SGraph.horizontalBody (roundedBox ("Server: " ++ nm))
              (SGraph.capPorts (SGraph.portColOf ifaces))
              (SGraph.netColOf env ifaces)
              (SGraph.fipColOf (env.listFloatingIPs.toOption.getD [])
                ifaces)) ++
          "\n\n [g] close  [j/k] scroll", none)) ∧
    (GraphM.buildGraph env .network id nm false).1 =
      joinHorizontalCenter (GraphM.networkRow env id nm) := by
  refine ⟨?_, ?_, rfl⟩
  · unfold SGraph.sgShouldStack
    split
    · rename_i hpos
      simp only [decide_eq_true_eq]
      exact ⟨fun hlt => ⟨hpos, hlt⟩, fun hc => hc.2⟩
    · rename_i hpos
      simp only [Bool.false_eq_true, false_iff, not_and]
      intro hc
      exact absurd hc hpos
  · intro ifaces vols h1 h2
    simp [SGraph.buildGraph, h1, h2]

theorem c8_stacking_threshold_witness :
    (c8Env.listServerInterfaces "s1" = .ok [] ∧
      c8Env.listServerVolumes "s1" = .ok []) ∧
    SGraph.sgShouldStack 10 "wide-server-box-wider-than-ten" [] [] [] =
      true ∧
    SGraph.buildGraph c8Env 10 "s1" "web1" =
      (SGraph.volPartOf [] ++
        (if SGraph.sgShouldStack 10 (roundedBox ("Server: " ++ "web1"))
            (SGraph.capPorts (SGraph.portColOf []))
            (SGraph.netColOf c8Env [])
            (SGraph.fipColOf (c8Env.listFloatingIPs.toOption.getD []) [])
         then SGraph.stackedBody (roundedBox ("Server: " ++ "web1"))
            (SGraph.capPorts (SGraph.portColOf []))
            (SGraph.netColOf c8Env [])
            (SGraph.fipColOf (c8Env.listFloatingIPs.toOption.getD []) [])
         else SGraph.horizontalBody (roundedBox ("Server: " ++ "web1"))
            (SGraph.capPorts (SGraph.portColOf []))
            (SGraph.netColOf c8Env [])
            (SGraph.fipColOf (c8Env.listFloatingIPs.toOption.getD []) [])) ++
        "\n\n [g] close  [j/k] scroll", none) := by
  refine ⟨⟨rfl, rfl⟩, ?_, ?_⟩
  · exact (c8_stacking_threshold 10 "wide-server-box-wider-than-ten" [] [] []
      c8Env "s1" "web1").1.2 (by decide)
  · exact (c8_stacking_threshold 10 (roundedBox ("Server: " ++ "web1"))
      [] [] [] c8Env "s1" "web1").2.1 [] [] rfl rfl

/-! ## Shared fixtures for the state-machine claims -/

def appEnv : App.Env := { clouds := none }

/-- The root model in Detail mode showing the network-subnets detail view
(a graph-eligible detail child). -/
def appDetailNet : App.AppModel :=
  { state := App.stateDetail, prevState := "", appWidth := 80, appHeight := 24
    sidebar := { items := ["Servers", "Networks"], cursor := 1
                 compWidth := 30, compHeight := 14, trace := [] }
    cloudList := { items := [], cursor := 0, compWidth := 30, compHeight := 10
                   trace := [] }
    selectedItem := "Networks", modalActive := false
    mainModel := some { sectionName := "Networks", rows := [["n1"]]
                        cursor := 0, trace := [] }
    detailModel := some { kind := "networkSubnets", resID := "n1"
                          resName := "net1", showingGraph := false
                          trace := [] }
    graphModel := none, logsModel := none, shellModel := none
    commandBar := { value := "", focused := false, trace := [] }
    tabMatches := [], tabIndex := 0 }

/-- appDetailNet after pressing g: Graph mode with a fresh loading child. -/
def appGraphM : App.AppModel :=
  (App.appUpdate appEnv appDetailNet (.key "g")).1

/-- Fold a message sequence through the state machine. -/
def appRun (m : App.AppModel) (msgs : List App.AMsg) : App.AppModel :=
  msgs.foldl (fun acc msg => (App.appUpdate appEnv acc msg).1) m

/-! ## Claim C2 -/

/-- The interleaving refuting C2: from Detail, g starts graph child A and
its fetch; g is forwarded to A, whose GoBackMsg tears A down back to
Detail; a second g creates child B and starts its fetch.  B's completion
("FRESH-B") arrives first, then A's stale completion ("STALE-A") arrives
late.  Completions carry no request identity, so the stale one is applied
to B and is what the active child renders. -/
def c2Msgs : List App.AMsg :=
  [.key "g", .key "g", .goBack, .key "g",
   .graphData "FRESH-B" none, .graphData "STALE-A" none]

def c2Run : App.AppModel := appRun appDetailNet c2Msgs

/-- C2 counterexample: after the interleaving above the active graph child
holds the stale content of the discarded child's fetch, not its own
result - the late completion mutated the newer child and is rendered. -/
theorem c2_counterexample :
    c2Run.state = App.stateGraph ∧
    c2Run.graphModel.map (fun g => g.content) = some "STALE-A" ∧
    c2Run.graphModel.map (fun g => g.content) ≠ some "FRESH-B" ∧
    c2Run.graphModel.map (fun g => g.loading) = some false := by
  refine ⟨rfl, rfl, by decide, rfl⟩

/-- C2 amended: graph completions carry no request identity.  A completion
delivered while Graph mode is active is applied to whichever graph child
currently occupies the slot (stale or not); a completion delivered in any
other mode leaves the graph slot untouched. -/
theorem c2_stale_application (env : App.Env) (m : App.AppModel)
    (g : App.GChild) (c : String) (e : Option String) :
    (m.state = App.stateGraph → m.graphModel = some g →
      (App.appUpdate env m (.graphData c e)).1.graphModel =
        some { g with loading := false, err := e, content := c
                      vpContent := c }) ∧
    (m.state ≠ App.stateGraph →
      (App.appUpdate env m (.graphData c e)).1.graphModel =
        m.graphModel) := by
  constructor
  · intro h1 h2
    simp [App.appUpdate, App.appTail, App.appDispatch, h1, h2,
      App.gchildUpdate, App.stateGraph, App.stateCommand, App.stateSidebar,
      App.stateCloudSelect, App.stateMain, App.stateDetail, App.stateShell,
      App.stateLogs]
  · intro h1
    simp only [App.appUpdate, App.appTail, App.appDispatch]
    repeat' split
    all_goals first
      | rfl
      | simp_all

theorem c2_stale_application_witness :
    (appGraphM.state = App.stateGraph ∧
      appGraphM.graphModel = some (App.newGraphChild "network" "n1" "net1")) ∧
    (App.appUpdate appEnv appGraphM (.graphData "STALE-A" none)).1.graphModel
      = some { App.newGraphChild "network" "n1" "net1" with
          loading := false, err := none, content := "STALE-A"
          vpContent := "STALE-A" } := by
  refine ⟨⟨rfl, rfl⟩, ?_⟩
  exact (c2_stale_application appEnv appGraphM
    (App.newGraphChild "network" "n1" "net1") "STALE-A" none).1 rfl rfl

/-! ## Claim C5 -/

/-- The keys the top-level switch of AppModel.Update intercepts. -/
def interceptedKeys : List String :=
  ["ctrl+c", "q", "?", "esc", "c", ":", "g", "enter"]

/-- C5 counterexample: in Graph mode a resize event is not forwarded to the
currently active child: the graph child is left untouched (its viewport
width stays 80), although forwarding the resize would have set it to 10. -/
theorem c5_counterexample :
    (App.appUpdate appEnv appGraphM (.window 10 10)).1.graphModel =
      appGraphM.graphModel ∧
    appGraphM.graphModel.map (fun g => g.vpWidth) = some 80 ∧
    (App.gchildUpdate (App.newGraphChild "network" "n1" "net1")
      (.window 10 10)).1.vpWidth = 10 ∧
    (App.appUpdate appEnv appGraphM (.window 10 10)).1.state =
      App.stateGraph := by
  refine ⟨rfl, rfl, rfl, rfl⟩

/-- C5 amended: resize events never change the mode and never reach the
detail or graph child; they are forwarded to the list child whenever one
exists.  The intercepted key set also contains Enter (sidebar/list
drill-down).  Non-intercepted keys are forwarded to the graph child in
Graph mode but are discarded - not forwarded - in Detail mode. -/
theorem c5_event_routing (env : App.Env) (m : App.AppModel) (w h : Int)
    (s : String) (dm : App.DetailChild) (g : App.GChild) :
    ((App.appUpdate env m (.window w h)).1.state = m.state ∧
     (App.appUpdate env m (.window w h)).1.prevState = m.prevState ∧
     (App.appUpdate env m (.window w h)).1.graphModel = m.graphModel ∧
     (App.appUpdate env m (.window w h)).1.detailModel = m.detailModel ∧
     (∀ c, m.mainModel = some c →
       (App.appUpdate env m (.window w h)).1.mainModel =
         some (c.update (.window w h)))) ∧
    (m.state = App.stateDetail → m.detailModel = some dm →
      s ∉ interceptedKeys →
      App.appUpdate env m (.key s) = (m, [])) ∧
    (m.state = App.stateGraph → m.graphModel = some g →
      s ∉ interceptedKeys →
      App.appUpdate env m (.key s) =
        ({ m with graphModel := some (App.gchildUpdate g (.key s)).1 },
         (App.gchildUpdate g (.key s)).2)) := by
  refine ⟨⟨?_, ?_, ?_, ?_, ?_⟩, ?_, ?_⟩
  · simp only [App.appUpdate]
    repeat' split
    all_goals rfl
  · simp only [App.appUpdate]
    repeat' split
    all_goals rfl
  · simp only [App.appUpdate]
    repeat' split
    all_goals rfl
  · simp only [App.appUpdate]
    repeat' split
    all_goals rfl
  · intro c hc
    simp only [App.appUpdate, hc]
    repeat' split
    all_goals rfl
  · intro h1 h2 h3
    simp only [interceptedKeys, List.mem_cons, List.not_mem_nil,
      or_false, not_or] at h3
    obtain ⟨n1, n2, n3, n4, n5, n6, n7, n8⟩ := h3
    simp only [App.appUpdate, App.appKey]
    simp [App.appTail, App.appDispatch, h1, h2, App.stateDetail,
        App.stateCommand, App.stateSidebar, App.stateCloudSelect,
        App.stateMain, App.AMsg.isKey]
  · intro h1 h2 h3
    simp only [interceptedKeys, List.mem_cons, List.not_mem_nil,
      or_false, not_or] at h3
    obtain ⟨n1, n2, n3, n4, n5, n6, n7, n8⟩ := h3
    simp only [App.appUpdate, App.appKey]
    simp [App.appTail, App.appDispatch, h1, h2, App.stateGraph,
        App.stateCommand, App.stateSidebar, App.stateCloudSelect,
        App.stateMain, App.stateDetail]

theorem c5_event_routing_witness :
    (appGraphM.state = App.stateGraph ∧
      appGraphM.graphModel = some (App.newGraphChild "network" "n1" "net1") ∧
      "j" ∉ interceptedKeys) ∧
    (App.appUpdate appEnv appGraphM (.window 10 10)).1.state =
      appGraphM.state ∧
    App.appUpdate appEnv appGraphM (.key "j") =
      ({ appGraphM with
          graphModel :=
            some (App.gchildUpdate (App.newGraphChild "network" "n1" "net1")
              (.key "j")).1 },
       (App.gchildUpdate (App.newGraphChild "network" "n1" "net1")
         (.key "j")).2) := by
  refine ⟨⟨rfl, rfl, by decide⟩, ?_, ?_⟩
  · exact (c5_event_routing appEnv appGraphM 10 10 "j"
      { kind := "", resID := "", resName := "", showingGraph := false
        trace := [] }
      (App.newGraphChild "network" "n1" "net1")).1.1
  · exact (c5_event_routing appEnv appGraphM 10 10 "j"
      { kind := "", resID := "", resName := "", showingGraph := false
        trace := [] }
      (App.newGraphChild "network" "n1" "net1")).2.2 rfl rfl (by decide)

/-! ## Claim C6 -/

/-- C6 counterexample: pressing Esc in Graph mode does not return to Detail
mode: the state machine's Esc handler sends every non-Help, non-Detail
state to the Sidebar and discards the list child. -/
theorem c6_counterexample :
    appGraphM.state = App.stateGraph ∧
    (App.appUpdate appEnv appGraphM (.key "esc")).1.state =
      App.stateSidebar ∧
    App.stateSidebar ≠ App.stateDetail ∧
    (App.appUpdate appEnv appGraphM (.key "esc")).1.mainModel = none := by
  refine ⟨rfl, rfl, by decide, rfl⟩

/-- C6 amended: from Graph mode, g is forwarded to the graph child, which
emits GoBackMsg; delivering GoBackMsg in Graph mode switches to Detail
(hard-coded, not via any history stack) and clears the graph child.  Esc
instead goes to the Sidebar and clears the list child. -/
theorem c6_graph_exit (env : App.Env) (m : App.AppModel) (g : App.GChild)
    (h1 : m.state = App.stateGraph) (h2 : m.graphModel = some g) :
    (App.appUpdate env m (.key "g")).2 = [.emit .goBack] ∧
    (App.appUpdate env m (.key "g")).1 = m ∧
    App.appUpdate env m .goBack =
      ({ m with state := App.stateDetail, graphModel := none }, []) ∧
    (App.appUpdate env m (.key "esc")).1.state = App.stateSidebar ∧
    (App.appUpdate env m (.key "esc")).1.mainModel = none := by
  refine ⟨?_, ?_, ?_, ?_, ?_⟩
  · simp [App.appUpdate, App.appKey, App.appKeyG, App.appTail,
      App.appDispatch, h1, h2, App.gchildUpdate, App.stateGraph,
      App.stateDetail, App.stateCommand, App.stateSidebar,
      App.stateCloudSelect, App.stateMain, App.stateLogs]
  · have hred : (App.appUpdate env m (.key "g")).1 =
        { m with graphModel := some g } := by
      simp [App.appUpdate, App.appKey, App.appKeyG, App.appTail,
        App.appDispatch, h1, h2, App.gchildUpdate, App.stateGraph,
        App.stateDetail, App.stateCommand, App.stateSidebar,
        App.stateCloudSelect, App.stateMain, App.stateLogs]
    rw [hred, ← h2]
  · simp [App.appUpdate, App.appTail, h1, App.stateGraph, App.stateDetail,
      App.stateLogs]
  · simp [App.appUpdate, App.appKey, h1, App.stateGraph, App.stateHelp,
      App.stateDetail, App.stateSidebar]
  · simp [App.appUpdate, App.appKey, h1, App.stateGraph, App.stateHelp,
      App.stateDetail, App.stateSidebar]

theorem c6_graph_exit_witness :
    (appGraphM.state = App.stateGraph ∧
      appGraphM.graphModel = some (App.newGraphChild "network" "n1" "net1")) ∧
    (App.appUpdate appEnv appGraphM (.key "g")).2 = [.emit .goBack] ∧
    App.appUpdate appEnv appGraphM .goBack =
      ({ appGraphM with state := App.stateDetail, graphModel := none },
        []) := by
  have h := c6_graph_exit appEnv appGraphM
    (App.newGraphChild "network" "n1" "net1") rfl rfl
  exact ⟨⟨rfl, rfl⟩, h.1, h.2.2.1⟩

/-! ## Claim C7 -/

/-- Help opened from Graph mode. -/
def c7Help : App.AppModel := (App.appUpdate appEnv appGraphM (.key "?")).1

/-- C7 counterexample: pressing ? while in Help does not return to the
recorded prior mode (Graph here); the ?-handler only acts when the state is
not Help, so the key is a no-op and the model stays in Help. -/
theorem c7_counterexample :
    c7Help.state = App.stateHelp ∧
    c7Help.prevState = App.stateGraph ∧
    (App.appUpdate appEnv c7Help (.key "?")).1.state = App.stateHelp ∧
    App.stateHelp ≠ App.stateGraph := by
  refine ⟨rfl, rfl, rfl, by decide⟩

/-- C7 amended: from any non-Help state, ? enters Help and records the
prior mode in prevState; from Help, Esc (and only Esc) returns to exactly
the recorded mode, while ? leaves the model unchanged. -/
theorem c7_help_toggle (env : App.Env) (m : App.AppModel) :
    (m.state ≠ App.stateHelp →
      (App.appUpdate env m (.key "?")).1.state = App.stateHelp ∧
      (App.appUpdate env m (.key "?")).1.prevState = m.state) ∧
    (m.state = App.stateHelp →
      App.appUpdate env m (.key "esc") =
        ({ m with state := m.prevState, prevState := "" }, []) ∧
      App.appUpdate env m (.key "?") = (m, [])) := by
  constructor
  · intro h
    simp only [App.stateHelp] at h
    constructor
    · simp [App.appUpdate, App.appKey, App.appTail, App.appDispatch, h,
        App.stateHelp, App.stateCommand, App.stateSidebar,
        App.stateCloudSelect, App.stateMain, App.stateDetail,
        App.stateGraph, App.stateShell, App.stateLogs]
    · simp [App.appUpdate, App.appKey, App.appTail, App.appDispatch, h,
        App.stateHelp, App.stateCommand, App.stateSidebar,
        App.stateCloudSelect, App.stateMain, App.stateDetail,
        App.stateGraph, App.stateShell, App.stateLogs]
  · intro h
    constructor
    · simp [App.appUpdate, App.appKey, h, App.stateHelp]
    · simp [App.appUpdate, App.appKey, App.appTail, App.appDispatch, h,
        App.stateHelp, App.stateCommand, App.stateSidebar,
        App.stateCloudSelect, App.stateMain, App.stateDetail,
        App.stateGraph, App.stateShell, App.stateLogs]

theorem c7_help_toggle_witness :
    (appGraphM.state ≠ App.stateHelp ∧ c7Help.state = App.stateHelp) ∧
    (App.appUpdate appEnv appGraphM (.key "?")).1.state = App.stateHelp ∧
    (App.appUpdate appEnv appGraphM (.key "?")).1.prevState =
      appGraphM.state ∧
    App.appUpdate appEnv c7Help (.key "esc") =
      ({ c7Help with state := c7Help.prevState, prevState := "" }, []) ∧
    App.appUpdate appEnv c7Help (.key "?") = (c7Help, []) := by
  have h1 := (c7_help_toggle appEnv appGraphM).1 (by decide)
  have h2 := (c7_help_toggle appEnv c7Help).2 rfl
  exact ⟨⟨by decide, rfl⟩, h1.1, h1.2, h2.1, h2.2⟩

end OSTUI
